import Mathlib

/-!
Verification development for the next-Ui-library repository.

Shallow embedding of the pieces under scrutiny:
* the JSON-schema-to-validator compiler (src/lib/schema-generator.ts,
  functions jsonFieldToZod / jsonSchemaToZod), together with the fragment of
  the zod validation library that the compiler actually uses;
* the default-value builder of the dynamic form component
  (createDefaultValues in src/components/dynamic-form.tsx);
* the posts Zustand store (src/store/postStore.ts);
* the sidebar menu persistence logic (src/components/nav-main.tsx),
  including an executable model of the JSON.stringify / JSON.parse round
  trip for records of booleans.

JavaScript numbers are modelled as integers (every constant the code under
verification compares against is an integer); machine floating point plays
no role in the claims.  Regular-expression tests, e-mail / URL syntax checks
and Date parsing are platform services; they are modelled as an abstract
environment `JsEnv` of boolean-valued functions.
-/

/-- JavaScript runtime values fed to compiled validators.  Arrays carry
strings: the only array-typed inputs in the code under verification are
multiselect values, whose elements are option strings. -/
inductive JsonValue where
  | undefined
  | null
  | str (s : String)
  | num (n : Int)
  | bool (b : Bool)
  | arr (elems : List String)
  | obj
deriving DecidableEq, Repr

/-- The field kinds of `JsonFieldDefinition.type` in schema-generator.ts. -/
inductive FieldType where
  | string
  | number
  | boolean
  | email
  | url
  | textarea
  | select
  | multiselect
  | date
  | datetime
  | file
deriving DecidableEq, Repr

/-- Platform services used by compiled validators: regular-expression test
(pattern, input), e-mail syntax, URL syntax, and `new Date(s)` parseability. -/
structure JsEnv where
  regexTest : String → String → Bool
  emailTest : String → Bool
  urlTest : String → Bool
  dateParses : String → Bool

/-- Checks carried by a zod string schema (z.string().min/max/regex/email/url). -/
inductive StringCheck where
  | minLen (n : Nat) (msg : String)
  | maxLen (n : Nat) (msg : String)
  | regex (pat : String) (msg : String)
  | email (msg : String)
  | url (msg : String)
deriving DecidableEq, Repr

/-- Checks carried by a zod number schema (z.number().min/max). -/
inductive NumCheck where
  | minVal (n : Int) (msg : String)
  | maxVal (n : Int) (msg : String)
deriving DecidableEq, Repr

/-- The refinement predicates that jsonFieldToZod installs via `.refine`:
the per-kind required checks and the date-validity check. -/
inductive RefineKind where
  | requiredBoolean
  | requiredSelect
  | requiredFile
  | validDate
deriving DecidableEq, Repr

/-- The fragment of zod schemas constructible by jsonFieldToZod. -/
inductive ZodSchema where
  | zString (checks : List StringCheck)
  | zNumber (checks : List NumCheck)
  | zBoolean
  | zAny
  | zEnum (values : List String)
  | zArrayEnum (values : List String) (minCheck : Option (Nat × String))
  | refine (inner : ZodSchema) (kind : RefineKind) (msg : String)
  | zOptional (inner : ZodSchema)
deriving DecidableEq, Repr

/-- zod's name for the runtime type of a value (getParsedType). -/
def jsTypeName : JsonValue → String
  | .undefined => "undefined"
  | .null => "null"
  | .str _ => "string"
  | .num _ => "number"
  | .bool _ => "boolean"
  | .arr _ => "array"
  | .obj => "object"

/-- zod's invalid_type issue message: the bare string "Required" when the
input is undefined, otherwise "Expected ..., received ...". -/
def invalidTypeMsg (expected : String) (v : JsonValue) : String :=
  match v with
  | .undefined => "Required"
  | _ => "Expected " ++ expected ++ ", received " ++ jsTypeName v

/-- zod's invalid_enum_value issue message. -/
def enumIssue (values : List String) (received : String) : String :=
  "Invalid enum value. Expected " ++ String.intercalate " | " values
    ++ ", received " ++ received

/-- Outcome of a zod parse: `aborted` mirrors zod's INVALID status (type-level
failure that suppresses later refinements); validation succeeds iff `issues`
is empty. -/
structure ParseResult where
  aborted : Bool
  issues : List String
deriving DecidableEq, Repr

/-- Run the checks of a zod string schema, accumulating issue messages in
order, exactly as ZodString._parse does. -/
def runStringChecks (env : JsEnv) (s : String) : List StringCheck → List String
  | [] => []
  | .minLen n msg :: cs =>
      (if s.length < n then [msg] else []) ++ runStringChecks env s cs
  | .maxLen n msg :: cs =>
      (if s.length > n then [msg] else []) ++ runStringChecks env s cs
  | .regex pat msg :: cs =>
      (if env.regexTest pat s then [] else [msg]) ++ runStringChecks env s cs
  | .email msg :: cs =>
      (if env.emailTest s then [] else [msg]) ++ runStringChecks env s cs
  | .url msg :: cs =>
      (if env.urlTest s then [] else [msg]) ++ runStringChecks env s cs

/-- Run the checks of a zod number schema (ZodNumber._parse). -/
def runNumChecks (n : Int) : List NumCheck → List String
  | [] => []
  | .minVal m msg :: cs => (if n < m then [msg] else []) ++ runNumChecks n cs
  | .maxVal m msg :: cs => (if n > m then [msg] else []) ++ runNumChecks n cs

/-- The refinement predicates used by jsonFieldToZod, as they evaluate at
runtime (the closure dispatches on the field's type). -/
def refinePasses (env : JsEnv) : RefineKind → JsonValue → Bool
  | .requiredBoolean, v => v != JsonValue.undefined && v != JsonValue.null
  | .requiredSelect, v =>
      v != JsonValue.undefined && v != JsonValue.null && v != JsonValue.str ""
  | .requiredFile, v => v != JsonValue.undefined && v != JsonValue.null
  | .validDate, v =>
      match v with
      | .str s => env.dateParses s
      | _ => false

/-- Parse one array element against z.enum(values) (used inside
z.array(z.enum(...)) for multiselect fields). -/
def parseEnumElem (values : List String) (s : String) : ParseResult :=
  if s ∈ values then ⟨false, []⟩ else ⟨true, [enumIssue values s]⟩

/-- zod parse for the schema fragment above.  Mirrors zod v3 semantics:
type-level failures abort (suppressing `.refine`), failing checks accumulate
issues, `.optional()` short-circuits on undefined. -/
def zodParse (env : JsEnv) : ZodSchema → JsonValue → ParseResult
  | .zString checks, .str s => ⟨false, runStringChecks env s checks⟩
  | .zString _, v => ⟨true, [invalidTypeMsg "string" v]⟩
  | .zNumber checks, .num n => ⟨false, runNumChecks n checks⟩
  | .zNumber _, v => ⟨true, [invalidTypeMsg "number" v]⟩
  | .zBoolean, .bool _ => ⟨false, []⟩
  | .zBoolean, v => ⟨true, [invalidTypeMsg "boolean" v]⟩
  | .zAny, _ => ⟨false, []⟩
  | .zEnum values, .str s =>
      if s ∈ values then ⟨false, []⟩ else ⟨true, [enumIssue values s]⟩
  | .zEnum _, v => ⟨true, [invalidTypeMsg "string" v]⟩
  | .zArrayEnum values minCheck, .arr elems =>
      let minIssues :=
        match minCheck with
        | some (n, msg) => if elems.length < n then [msg] else []
        | none => []
      let results := elems.map (parseEnumElem values)
      ⟨results.any (·.aborted), minIssues ++ (results.map (·.issues)).flatten⟩
  | .zArrayEnum _ _, v => ⟨true, [invalidTypeMsg "array" v]⟩
  | .refine inner kind msg, v =>
      let r := zodParse env inner v
      if r.aborted then r
      else if refinePasses env kind v then r
      else ⟨r.aborted, r.issues ++ [msg]⟩
  | .zOptional inner, v =>
      if v = JsonValue.undefined then ⟨false, []⟩ else zodParse env inner v

/-- An entry of `JsonFieldDefinition.options`. -/
structure FieldOption where
  value : String
  label : String
deriving DecidableEq, Repr

/-- The `validation` sub-object of a field definition. -/
structure FieldValidation where
  message : Option String := none
  custom : Option String := none
deriving DecidableEq, Repr

/-- JsonFieldDefinition of schema-generator.ts.  Absent JavaScript properties
are `none`. -/
structure JsonFieldDefinition where
  name : String
  type : FieldType
  label : Option String := none
  placeholder : Option String := none
  required : Option Bool := none
  min : Option Int := none
  max : Option Int := none
  minLength : Option Nat := none
  maxLength : Option Nat := none
  pattern : Option String := none
  options : Option (List FieldOption) := none
  defaultValue : Option JsonValue := none
  validation : Option FieldValidation := none
deriving DecidableEq, Repr

/-- JsonFormSchema of schema-generator.ts. -/
structure JsonFormSchema where
  title : Option String := none
  description : Option String := none
  fields : List JsonFieldDefinition
deriving DecidableEq, Repr

/-- JavaScript truthiness of an optional number property (`if (field.minLength)`):
absent and 0 are both falsy. -/
def truthyNat : Option Nat → Bool
  | none => false
  | some n => n != 0

/-- JavaScript truthiness of an optional string property: absent and "" falsy. -/
def truthyStr : Option String → Bool
  | none => false
  | some s => s != ""

/-- Evaluates field.label || field.name (an empty-string label is falsy). -/
def labelOrName (f : JsonFieldDefinition) : String :=
  match f.label with
  | some l => if l != "" then l else f.name
  | none => f.name

/-- Evaluates field.validation?.message || fallback. -/
def validationMsg (f : JsonFieldDefinition) (fallback : String) : String :=
  match f.validation with
  | some v =>
      match v.message with
      | some m => if m != "" then m else fallback
      | none => fallback
  | none => fallback

/-- The message the compiler uses for required checks:
custom validation message, otherwise "label-or-name is required". -/
def requiredMsg (f : JsonFieldDefinition) : String :=
  validationMsg f (labelOrName f ++ " is required")

/-- The kinds the compiler treats as plain strings for length / pattern /
required purposes. -/
def isStringKind : FieldType → Bool
  | .string | .email | .url | .textarea => true
  | _ => false

/-- The literal name of a field type (template `${field.type}`). -/
def fieldTypeText : FieldType → String
  | .string => "string"
  | .number => "number"
  | .boolean => "boolean"
  | .email => "email"
  | .url => "url"
  | .textarea => "textarea"
  | .select => "select"
  | .multiselect => "multiselect"
  | .date => "date"
  | .datetime => "datetime"
  | .file => "file"

/-- The base schema chosen by the `switch (field.type)` of jsonFieldToZod. -/
def baseSchema (f : JsonFieldDefinition) : ZodSchema :=
  match f.type with
  | .string | .email | .url | .textarea => .zString []
  | .number => .zNumber []
  | .boolean => .zBoolean
  | .date | .datetime => .zString []
  | .file => .zAny
  | .select =>
      match f.options with
      | some opts => .zEnum (opts.map (·.value))
      | none => .zString []
  | .multiselect =>
      match f.options with
      | some opts => .zArrayEnum (opts.map (·.value)) none
      | none => .zString []

/-- ZodString.min: append a minimum-length check (identity on other schemas,
which the source never hits on this path). -/
def zStrMin (s : ZodSchema) (n : Nat) (msg : String) : ZodSchema :=
  match s with
  | .zString cs => .zString (cs ++ [.minLen n msg])
  | other => other

/-- ZodString.max: append a maximum-length check. -/
def zStrMax (s : ZodSchema) (n : Nat) (msg : String) : ZodSchema :=
  match s with
  | .zString cs => .zString (cs ++ [.maxLen n msg])
  | other => other

/-- ZodString.regex: append a pattern check. -/
def zStrRegex (s : ZodSchema) (pat : String) (msg : String) : ZodSchema :=
  match s with
  | .zString cs => .zString (cs ++ [.regex pat msg])
  | other => other

/-- ZodString.email: append an e-mail syntax check. -/
def zStrEmail (s : ZodSchema) (msg : String) : ZodSchema :=
  match s with
  | .zString cs => .zString (cs ++ [.email msg])
  | other => other

/-- ZodString.url: append a URL syntax check. -/
def zStrUrl (s : ZodSchema) (msg : String) : ZodSchema :=
  match s with
  | .zString cs => .zString (cs ++ [.url msg])
  | other => other

/-- ZodNumber.min: append a minimum-value check. -/
def zNumMin (s : ZodSchema) (n : Int) (msg : String) : ZodSchema :=
  match s with
  | .zNumber cs => .zNumber (cs ++ [.minVal n msg])
  | other => other

/-- ZodNumber.max: append a maximum-value check. -/
def zNumMax (s : ZodSchema) (n : Int) (msg : String) : ZodSchema :=
  match s with
  | .zNumber cs => .zNumber (cs ++ [.maxVal n msg])
  | other => other

/-- The `(schema as z.ZodArray).min(1, ...)` call of the required-multiselect
branch.  The cast is unchecked: at runtime the receiver is a ZodArray when the
field declared options, and a ZodString otherwise (JavaScript method dispatch
then runs ZodString.min).  ZodArray.min replaces the stored bound. -/
def zArrMin (s : ZodSchema) (n : Nat) (msg : String) : ZodSchema :=
  match s with
  | .zArrayEnum values _ => .zArrayEnum values (some (n, msg))
  | .zString cs => .zString (cs ++ [.minLen n msg])
  | other => other

/-- The refinement kind the required branch installs for boolean / select /
file fields. -/
def requiredRefineKind : FieldType → RefineKind
  | .boolean => .requiredBoolean
  | .select => .requiredSelect
  | _ => .requiredFile

/-- Body of the `if (field.required !== false)` block of jsonFieldToZod. -/
def applyRequired (f : JsonFieldDefinition) (s : ZodSchema) : ZodSchema :=
  if isStringKind f.type then zStrMin s 1 (requiredMsg f)
  else if f.type == .number then zNumMin s 1 (requiredMsg f)
  else if f.type == .multiselect then zArrMin s 1 (requiredMsg f)
  else if f.type == .boolean || f.type == .select || f.type == .file then
    .refine s (requiredRefineKind f.type) (requiredMsg f)
  else s

/-- The `if (field.required !== false)` gate itself. -/
def applyRequiredGate (f : JsonFieldDefinition) (s : ZodSchema) : ZodSchema :=
  if f.required != some false then applyRequired f s else s

/-- The if (field.minLength) block: only applied to string kinds. -/
def applyMinLength (f : JsonFieldDefinition) (s : ZodSchema) : ZodSchema :=
  if truthyNat f.minLength && isStringKind f.type then
    zStrMin s (f.minLength.getD 0)
      (validationMsg f (labelOrName f ++ " must be at least "
        ++ toString (f.minLength.getD 0) ++ " characters"))
  else s

/-- The if (field.maxLength) block: only applied to string kinds. -/
def applyMaxLength (f : JsonFieldDefinition) (s : ZodSchema) : ZodSchema :=
  if truthyNat f.maxLength && isStringKind f.type then
    zStrMax s (f.maxLength.getD 0)
      (validationMsg f (labelOrName f ++ " must be less than "
        ++ toString (f.maxLength.getD 0) ++ " characters"))
  else s

/-- The block guarded by field.min present and the number kind. -/
def applyNumMin (f : JsonFieldDefinition) (s : ZodSchema) : ZodSchema :=
  if f.min.isSome && f.type == .number then
    zNumMin s (f.min.getD 0)
      (validationMsg f (labelOrName f ++ " must be at least "
        ++ toString (f.min.getD 0)))
  else s

/-- The block guarded by field.max present and the number kind. -/
def applyNumMax (f : JsonFieldDefinition) (s : ZodSchema) : ZodSchema :=
  if f.max.isSome && f.type == .number then
    zNumMax s (f.max.getD 0)
      (validationMsg f (labelOrName f ++ " must be less than "
        ++ toString (f.max.getD 0)))
  else s

/-- The if (field.pattern) block: only applied to string kinds. -/
def applyPattern (f : JsonFieldDefinition) (s : ZodSchema) : ZodSchema :=
  if truthyStr f.pattern && isStringKind f.type then
    zStrRegex s (f.pattern.getD "")
      (validationMsg f (labelOrName f ++ " format is invalid"))
  else s

/-- Type-specific e-mail check. -/
def applyEmail (f : JsonFieldDefinition) (s : ZodSchema) : ZodSchema :=
  if f.type == .email then
    zStrEmail s (validationMsg f "Please enter a valid email address")
  else s

/-- Type-specific URL check. -/
def applyUrl (f : JsonFieldDefinition) (s : ZodSchema) : ZodSchema :=
  if f.type == .url then
    zStrUrl s (validationMsg f "Please enter a valid URL")
  else s

/-- Type-specific date parseability refinement. -/
def applyDate (f : JsonFieldDefinition) (s : ZodSchema) : ZodSchema :=
  if f.type == .date || f.type == .datetime then
    .refine s .validDate
      (validationMsg f ("Please enter a valid " ++ fieldTypeText f.type))
  else s

/-- The final optional wrap when required is explicitly false. -/
def applyOptional (f : JsonFieldDefinition) (s : ZodSchema) : ZodSchema :=
  if f.required == some false then .zOptional s else s

/-- jsonFieldToZod of schema-generator.ts: the blocks run in source order,
each rebinding `schema`. -/
def jsonFieldToZod (f : JsonFieldDefinition) : ZodSchema :=
  applyOptional f (applyDate f (applyUrl f (applyEmail f (applyPattern f
    (applyNumMax f (applyNumMin f (applyMaxLength f (applyMinLength f
      (applyRequiredGate f (baseSchema f))))))))))

/-- A JavaScript record of values keyed by field name. -/
def JsRecord := List (String × JsonValue)

/-- Property access `record[name]`: undefined when absent. -/
def recordGet (r : JsRecord) (k : String) : JsonValue :=
  match r.find? (fun p => p.1 == k) with
  | some p => p.2
  | none => .undefined

/-- jsonSchemaToZod: the shape of the z.object built from a form schema. -/
def jsonSchemaToZod (js : JsonFormSchema) : List (String × ZodSchema) :=
  js.fields.map (fun f => (f.name, jsonFieldToZod f))

/-- Parsing a record against a z.object shape: every field of the shape is
parsed against the record's value at that key; issues accumulate.  (zod
strips unknown keys without error.) -/
def zodObjectIssues (env : JsEnv) (shape : List (String × ZodSchema))
    (r : JsRecord) : List String :=
  (shape.map (fun p => (zodParse env p.2 (recordGet r p.1)).issues)).flatten

/-- The per-kind fallback default of createDefaultValues in
dynamic-form.tsx (note: the number fallback is the empty string). -/
def fallbackDefault : FieldType → JsonValue
  | .string | .email | .url | .textarea | .date | .datetime => .str ""
  | .number => .str ""
  | .boolean => .bool false
  | .select => .str ""
  | .multiselect => .arr []
  | .file => .null

/-- createDefaultValues of dynamic-form.tsx: caller-supplied override,
else the field's declared defaultValue, else the per-kind fallback. -/
def createDefaultValues (js : JsonFormSchema) (overrides : JsRecord) :
    JsRecord :=
  js.fields.map (fun f =>
    (f.name,
      if recordGet overrides f.name != JsonValue.undefined then
        recordGet overrides f.name
      else
        match f.defaultValue with
        | some v => v
        | none => fallbackDefault f.type))

/-- A trivial platform environment (all syntax checks accept). -/
def envTriv : JsEnv :=
  ⟨fun _ _ => true, fun _ => true, fun _ => true, fun _ => true⟩

theorem requiredGate_of_ne {f : JsonFieldDefinition} (s : ZodSchema)
    (hr : f.required ≠ some false) :
    applyRequiredGate f s = applyRequired f s := by
  unfold applyRequiredGate
  simp [bne_iff_ne, hr]

theorem applyOptional_of_ne {f : JsonFieldDefinition} (s : ZodSchema)
    (hr : f.required ≠ some false) : applyOptional f s = s := by
  unfold applyOptional
  simp [hr]

/-- The compiled schema of a number-kind field with `required` not false
starts with the min-1 "required" check. -/
theorem jz_number_shape (f : JsonFieldDefinition) (ht : f.type = .number)
    (hr : f.required ≠ some false) :
    ∃ cs, jsonFieldToZod f = .zNumber (.minVal 1 (requiredMsg f) :: cs) := by
  unfold jsonFieldToZod
  rw [requiredGate_of_ne _ hr]
  have hbase : baseSchema f = .zNumber [] := by simp [baseSchema, ht]
  have hreq : applyRequired f (baseSchema f)
      = .zNumber [.minVal 1 (requiredMsg f)] := by
    unfold applyRequired
    simp [hbase, isStringKind, ht, zNumMin]
  rw [hreq]
  have hml : ∀ s, applyMinLength f s = s := by
    intro s; unfold applyMinLength; simp [isStringKind, ht]
  have hMl : ∀ s, applyMaxLength f s = s := by
    intro s; unfold applyMaxLength; simp [isStringKind, ht]
  have hpat : ∀ s, applyPattern f s = s := by
    intro s; unfold applyPattern; simp [isStringKind, ht]
  have hem : ∀ s, applyEmail f s = s := by
    intro s; unfold applyEmail; simp [ht]
  have hur : ∀ s, applyUrl f s = s := by
    intro s; unfold applyUrl; simp [ht]
  have hdt : ∀ s, applyDate f s = s := by
    intro s; unfold applyDate; simp [ht]
  rw [hml, hMl]
  set aMsg := validationMsg f (labelOrName f ++ " must be at least "
    ++ toString (f.min.getD 0)) with haMsg
  set bMsg := validationMsg f (labelOrName f ++ " must be less than "
    ++ toString (f.max.getD 0)) with hbMsg
  by_cases hmin : f.min.isSome
  · by_cases hmax : f.max.isSome
    · refine ⟨[.minVal (f.min.getD 0) aMsg, .maxVal (f.max.getD 0) bMsg], ?_⟩
      simp [applyNumMin, applyNumMax, hmin, hmax, ht, zNumMin, zNumMax,
        hpat, hem, hur, hdt, applyOptional_of_ne _ hr]
    · refine ⟨[.minVal (f.min.getD 0) aMsg], ?_⟩
      simp [applyNumMin, applyNumMax, hmin, hmax, ht, zNumMin, zNumMax,
        hpat, hem, hur, hdt, applyOptional_of_ne _ hr]
  · by_cases hmax : f.max.isSome
    · refine ⟨[.maxVal (f.max.getD 0) bMsg], ?_⟩
      simp [applyNumMin, applyNumMax, hmin, hmax, ht, zNumMin, zNumMax,
        hpat, hem, hur, hdt, applyOptional_of_ne _ hr]
    · refine ⟨[], ?_⟩
      simp [applyNumMin, applyNumMax, hmin, hmax, ht, zNumMin, zNumMax,
        hpat, hem, hur, hdt, applyOptional_of_ne _ hr]

/-- C9: a required number field rejects every value below 1 with the
field's required message, because requiredness is compiled as `.min(1)`. -/
theorem C9_number_required_is_min_one (env : JsEnv)
    (f : JsonFieldDefinition) (n : Int)
    (ht : f.type = .number) (hr : f.required ≠ some false)
    (hn : n < 1) :
    requiredMsg f ∈ (zodParse env (jsonFieldToZod f) (.num n)).issues ∧
      (zodParse env (jsonFieldToZod f) (.num n)).issues ≠ [] := by
  obtain ⟨cs, hshape⟩ := jz_number_shape f ht hr
  rw [hshape]
  have : zodParse env (.zNumber (.minVal 1 (requiredMsg f) :: cs)) (.num n)
      = ⟨false, requiredMsg f :: runNumChecks n cs⟩ := by
    simp [zodParse, runNumChecks, hn]
  rw [this]
  exact ⟨List.mem_cons_self _ _, by simp⟩

theorem C9_number_required_is_min_one_witness :
    requiredMsg { name := "age", type := .number } ∈
      (zodParse envTriv
        (jsonFieldToZod { name := "age", type := .number })
        (.num 0)).issues := by
  exact (C9_number_required_is_min_one envTriv
    { name := "age", type := .number } 0 rfl (by simp) (by decide)).1

theorem applyMinLength_id_of_zero (f : JsonFieldDefinition)
    (h : f.minLength = some 0) (s : ZodSchema) : applyMinLength f s = s := by
  unfold applyMinLength
  simp [h, truthyNat]

theorem applyMinLength_id_of_none (f : JsonFieldDefinition)
    (h : f.minLength = none) (s : ZodSchema) : applyMinLength f s = s := by
  unfold applyMinLength
  simp [h, truthyNat]

theorem applyMaxLength_id_of_zero (f : JsonFieldDefinition)
    (h : f.maxLength = some 0) (s : ZodSchema) : applyMaxLength f s = s := by
  unfold applyMaxLength
  simp [h, truthyNat]

theorem applyMaxLength_id_of_none (f : JsonFieldDefinition)
    (h : f.maxLength = none) (s : ZodSchema) : applyMaxLength f s = s := by
  unfold applyMaxLength
  simp [h, truthyNat]

/-- The bound of a minLength: 0 declaration is never installed (JavaScript
truthiness), so the compiled schema equals that of the field without it. -/
theorem jz_minLength_zero (f : JsonFieldDefinition) (h : f.minLength = some 0) :
    jsonFieldToZod f = jsonFieldToZod { f with minLength := none } := by
  unfold jsonFieldToZod
  rw [applyMinLength_id_of_zero f h, applyMinLength_id_of_none _ rfl]
  rfl

/-- Likewise for maxLength: 0. -/
theorem jz_maxLength_zero (f : JsonFieldDefinition) (h : f.maxLength = some 0) :
    jsonFieldToZod f = jsonFieldToZod { f with maxLength := none } := by
  unfold jsonFieldToZod
  rw [applyMaxLength_id_of_zero f h, applyMaxLength_id_of_none _ rfl]
  rfl

/-- C10: a zero minLength or maxLength bound is dropped by the truthiness
test; in particular maxLength: 0 compiles to a validator with behaviour
identical to the same field with no maxLength at all. -/
theorem C10_zero_length_bounds_dropped (env : JsEnv)
    (f : JsonFieldDefinition) (v : JsonValue) :
    (f.minLength = some 0 →
      zodParse env (jsonFieldToZod f) v =
        zodParse env (jsonFieldToZod { f with minLength := none }) v) ∧
    (f.maxLength = some 0 →
      zodParse env (jsonFieldToZod f) v =
        zodParse env (jsonFieldToZod { f with maxLength := none }) v) := by
  constructor
  · intro h
    rw [jz_minLength_zero f h]
  · intro h
    rw [jz_maxLength_zero f h]

theorem C10_zero_length_bounds_dropped_witness :
    zodParse envTriv
        (jsonFieldToZod { name := "x", type := .string, maxLength := some 0 })
        (.str "very long indeed") =
      zodParse envTriv
        (jsonFieldToZod
          { name := "x", type := .string, maxLength := none })
        (.str "very long indeed") := by
  exact (C10_zero_length_bounds_dropped envTriv
    { name := "x", type := .string, maxLength := some 0 }
    (.str "very long indeed")).2 rfl

theorem applyMinLength_id_of_not_string (f : JsonFieldDefinition)
    (hk : isStringKind f.type = false) (s : ZodSchema) :
    applyMinLength f s = s := by
  unfold applyMinLength
  simp [hk]

theorem applyMaxLength_id_of_not_string (f : JsonFieldDefinition)
    (hk : isStringKind f.type = false) (s : ZodSchema) :
    applyMaxLength f s = s := by
  unfold applyMaxLength
  simp [hk]

theorem applyPattern_id_of_not_string (f : JsonFieldDefinition)
    (hk : isStringKind f.type = false) (s : ZodSchema) :
    applyPattern f s = s := by
  unfold applyPattern
  simp [hk]

theorem applyPattern_id_of_none (f : JsonFieldDefinition)
    (h : f.pattern = none) (s : ZodSchema) : applyPattern f s = s := by
  unfold applyPattern
  simp [h, truthyStr]

theorem stringKind_ne_number (f : JsonFieldDefinition)
    (hk : isStringKind f.type = true) :
    (f.type == FieldType.number) = false := by
  cases h : f.type <;> simp_all [isStringKind]

theorem applyNumMin_id_of_not_number (f : JsonFieldDefinition)
    (h : (f.type == FieldType.number) = false) (s : ZodSchema) :
    applyNumMin f s = s := by
  unfold applyNumMin
  simp [h]

theorem applyNumMax_id_of_not_number (f : JsonFieldDefinition)
    (h : (f.type == FieldType.number) = false) (s : ZodSchema) :
    applyNumMax f s = s := by
  unfold applyNumMax
  simp [h]

theorem applyNumMin_id_of_none (f : JsonFieldDefinition)
    (h : f.min = none) (s : ZodSchema) : applyNumMin f s = s := by
  unfold applyNumMin
  simp [h]

theorem applyNumMax_id_of_none (f : JsonFieldDefinition)
    (h : f.max = none) (s : ZodSchema) : applyNumMax f s = s := by
  unfold applyNumMax
  simp [h]

/-- On a non-string-kind field, the three string-only constraints compile
to nothing: the schema equals that of the stripped field. -/
theorem jz_drop_string_constraints (f : JsonFieldDefinition)
    (hk : isStringKind f.type = false) :
    jsonFieldToZod f =
      jsonFieldToZod
        { f with minLength := none, maxLength := none, pattern := none } := by
  unfold jsonFieldToZod
  rw [applyMinLength_id_of_not_string f hk,
    applyMaxLength_id_of_not_string f hk,
    applyPattern_id_of_not_string f hk,
    applyMinLength_id_of_none _ rfl,
    applyMaxLength_id_of_none _ rfl,
    applyPattern_id_of_none _ rfl]
  rfl

/-- On a string-kind field, the numeric min/max constraints compile to
nothing. -/
theorem jz_drop_numeric_constraints (f : JsonFieldDefinition)
    (hk : isStringKind f.type = true) :
    jsonFieldToZod f = jsonFieldToZod { f with min := none, max := none } := by
  unfold jsonFieldToZod
  rw [applyNumMin_id_of_not_number f (stringKind_ne_number f hk),
    applyNumMax_id_of_not_number f (stringKind_ne_number f hk),
    applyNumMin_id_of_none _ rfl,
    applyNumMax_id_of_none _ rfl]
  rfl

/-- C4: constraints a kind does not support are silently ignored — the
compiled validator behaves exactly like the one compiled without them. -/
theorem C4_unsupported_constraints_ignored (env : JsEnv)
    (f : JsonFieldDefinition) (v : JsonValue) :
    (isStringKind f.type = false →
      zodParse env (jsonFieldToZod f) v =
        zodParse env
          (jsonFieldToZod
            { f with minLength := none, maxLength := none, pattern := none })
          v) ∧
    (isStringKind f.type = true →
      zodParse env (jsonFieldToZod f) v =
        zodParse env (jsonFieldToZod { f with min := none, max := none }) v) := by
  constructor
  · intro hk
    rw [jz_drop_string_constraints f hk]
  · intro hk
    rw [jz_drop_numeric_constraints f hk]

theorem C4_unsupported_constraints_ignored_witness :
    zodParse envTriv
        (jsonFieldToZod
          { name := "n", type := .number, minLength := some 5,
            maxLength := some 9, pattern := some "^a+$" })
        (.num 7) =
      zodParse envTriv
        (jsonFieldToZod
          { name := "n", type := .number, minLength := none,
            maxLength := none, pattern := none })
        (.num 7) := by
  exact (C4_unsupported_constraints_ignored envTriv
    { name := "n", type := .number, minLength := some 5,
      maxLength := some 9, pattern := some "^a+$" }
    (.num 7)).1 rfl

/-- The minLength message of a string-kind field. -/
def strMinLenMsg (f : JsonFieldDefinition) : String :=
  validationMsg f (labelOrName f ++ " must be at least "
    ++ toString (f.minLength.getD 0) ++ " characters")

/-- The maxLength message of a string-kind field. -/
def strMaxLenMsg (f : JsonFieldDefinition) : String :=
  validationMsg f (labelOrName f ++ " must be less than "
    ++ toString (f.maxLength.getD 0) ++ " characters")

/-- The pattern message of a string-kind field. -/
def strPatternMsg (f : JsonFieldDefinition) : String :=
  validationMsg f (labelOrName f ++ " format is invalid")

/-- The e-mail message. -/
def strEmailMsg (f : JsonFieldDefinition) : String :=
  validationMsg f "Please enter a valid email address"

/-- The URL message. -/
def strUrlMsg (f : JsonFieldDefinition) : String :=
  validationMsg f "Please enter a valid URL"

/-- The format checks a string-kind field carries after its length bounds:
the declared pattern, then the e-mail or URL syntax check of the kind. -/
def strExtraChecks (f : JsonFieldDefinition) : List StringCheck :=
  (if truthyStr f.pattern then
    [.regex (f.pattern.getD "") (strPatternMsg f)] else [])
    ++ (if f.type == .email then [.email (strEmailMsg f)] else [])
    ++ (if f.type == .url then [.url (strUrlMsg f)] else [])

/-- A string satisfies the format checks of its field: the declared pattern
matches it, and the kind-specific e-mail / URL syntax check accepts it. -/
def formatChecksPass (env : JsEnv) (f : JsonFieldDefinition) (s : String) :
    Prop :=
  (truthyStr f.pattern = true →
    env.regexTest (f.pattern.getD "") s = true) ∧
  (f.type = .email → env.emailTest s = true) ∧
  (f.type = .url → env.urlTest s = true)

/-- Compiled shape of a string-kind field carrying both length bounds:
the required min-1 check (unless required is false), the two length checks,
then the format checks, optionally wrapped for a non-required field. -/
theorem jz_stringKind_shape (f : JsonFieldDefinition) (m M : Nat)
    (hk : isStringKind f.type = true)
    (hm : f.minLength = some m) (hM : f.maxLength = some M)
    (hm0 : m ≠ 0) (hM0 : M ≠ 0) :
    (f.required ≠ some false →
      jsonFieldToZod f = .zString (.minLen 1 (requiredMsg f)
        :: .minLen m (strMinLenMsg f) :: .maxLen M (strMaxLenMsg f)
        :: strExtraChecks f)) ∧
    (f.required = some false →
      jsonFieldToZod f = .zOptional (.zString (.minLen m (strMinLenMsg f)
        :: .maxLen M (strMaxLenMsg f) :: strExtraChecks f))) := by
  constructor
  · intro hr
    have hgate : (f.required != some false) = true := by
      simp [bne_iff_ne]
      exact hr
    have hopt : (f.required == some false) = false := by
      simp
      exact hr
    cases ht : f.type <;> simp [isStringKind, ht] at hk <;>
      by_cases hp : truthyStr f.pattern <;>
        simp only [jsonFieldToZod, applyRequiredGate, applyRequired,
          applyMinLength, applyMaxLength, applyPattern, applyNumMin,
          applyNumMax, applyEmail, applyUrl, applyDate, applyOptional,
          baseSchema, isStringKind, strExtraChecks, strMinLenMsg,
          strMaxLenMsg, strPatternMsg, strEmailMsg, strUrlMsg,
          zStrMin, zStrMax, zStrRegex, zStrEmail, zStrUrl,
          truthyNat, ht, hm, hM, hgate, hopt, hp] <;>
        simp [hm0, hM0, hp]
  · intro hr
    have hgate : (f.required != some false) = false := by
      simp [hr]
    have hopt : (f.required == some false) = true := by
      simp [hr]
    cases ht : f.type <;> simp [isStringKind, ht] at hk <;>
      by_cases hp : truthyStr f.pattern <;>
        simp only [jsonFieldToZod, applyRequiredGate, applyRequired,
          applyMinLength, applyMaxLength, applyPattern, applyNumMin,
          applyNumMax, applyEmail, applyUrl, applyDate, applyOptional,
          baseSchema, isStringKind, strExtraChecks, strMinLenMsg,
          strMaxLenMsg, strPatternMsg, strEmailMsg, strUrlMsg,
          zStrMin, zStrMax, zStrRegex, zStrEmail, zStrUrl,
          truthyNat, ht, hm, hM, hgate, hopt, hp] <;>
        simp [hm0, hM0, hp]

theorem runStringChecks_minLen_fail (env : JsEnv) (s : String) (m : Nat)
    (a : String) (rest : List StringCheck) (h : s.length < m) :
    runStringChecks env s (.minLen m a :: rest) ≠ [] := by
  simp [runStringChecks, h]

theorem runStringChecks_maxLen_fail (env : JsEnv) (s : String) (M : Nat)
    (b : String) (rest : List StringCheck) (h : M < s.length) :
    runStringChecks env s (.maxLen M b :: rest) ≠ [] := by
  simp [runStringChecks, h]

theorem runStringChecks_cons_ne (env : JsEnv) (s : String) (c : StringCheck)
    (rest : List StringCheck) (h : runStringChecks env s rest ≠ []) :
    runStringChecks env s (c :: rest) ≠ [] := by
  cases c <;>
    simp only [runStringChecks] <;>
    intro hc <;>
    exact h (List.append_eq_nil.mp hc).2

theorem runStringChecks_minLen_pass (env : JsEnv) (s : String) (m : Nat)
    (a : String) (rest : List StringCheck) (h : ¬ s.length < m) :
    runStringChecks env s (.minLen m a :: rest)
      = runStringChecks env s rest := by
  simp [runStringChecks, h]

theorem runStringChecks_maxLen_pass (env : JsEnv) (s : String) (M : Nat)
    (b : String) (rest : List StringCheck) (h : ¬ M < s.length) :
    runStringChecks env s (.maxLen M b :: rest)
      = runStringChecks env s rest := by
  simp [runStringChecks, h]

theorem runStringChecks_extra_pass (env : JsEnv) (f : JsonFieldDefinition)
    (s : String) (hf : formatChecksPass env f s) :
    runStringChecks env s (strExtraChecks f) = [] := by
  rcases hf with ⟨hp, he, hu⟩
  by_cases h1 : truthyStr f.pattern = true <;>
    by_cases h2 : f.type = .email <;>
      by_cases h3 : f.type = .url <;>
        simp_all [strExtraChecks, runStringChecks]

/-- C2: a string-kind field (string, email, url or textarea) with
minLength m and maxLength M (1 ≤ m ≤ M) fails on strings of length m-1 and
M+1 and passes on strings of length m and M, provided the passing strings
satisfy the kind format checks (pattern, e-mail or URL syntax). -/
theorem C2_length_bounds_boundary (env : JsEnv) (f : JsonFieldDefinition)
    (m M : Nat) (s₁ s₂ s₃ s₄ : String)
    (hk : isStringKind f.type = true)
    (hm : f.minLength = some m) (hM : f.maxLength = some M)
    (h1 : 1 ≤ m) (hmM : m ≤ M)
    (l₁ : s₁.length = m - 1) (l₂ : s₂.length = m)
    (l₃ : s₃.length = M) (l₄ : s₄.length = M + 1)
    (hf₂ : formatChecksPass env f s₂) (hf₃ : formatChecksPass env f s₃) :
    (zodParse env (jsonFieldToZod f) (.str s₁)).issues ≠ [] ∧
    (zodParse env (jsonFieldToZod f) (.str s₂)).issues = [] ∧
    (zodParse env (jsonFieldToZod f) (.str s₃)).issues = [] ∧
    (zodParse env (jsonFieldToZod f) (.str s₄)).issues ≠ [] := by
  have hm0 : m ≠ 0 := by omega
  have hM0 : M ≠ 0 := by omega
  obtain ⟨hsh₁, hsh₂⟩ := jz_stringKind_shape f m M hk hm hM hm0 hM0
  have hps : ∀ (cs : List StringCheck) (s : String),
      zodParse env (.zString cs) (.str s)
        = ⟨false, runStringChecks env s cs⟩ := by
    intro cs s
    simp [zodParse]
  have hpo : ∀ (cs : List StringCheck) (s : String),
      zodParse env (.zOptional (.zString cs)) (.str s)
        = ⟨false, runStringChecks env s cs⟩ := by
    intro cs s
    simp [zodParse]
  by_cases hr : f.required = some false
  · rw [hsh₂ hr]
    simp only [hpo]
    refine ⟨?_, ?_, ?_, ?_⟩
    · exact runStringChecks_minLen_fail env s₁ m _ _ (by omega)
    · rw [runStringChecks_minLen_pass env s₂ m _ _ (by omega),
        runStringChecks_maxLen_pass env s₂ M _ _ (by omega),
        runStringChecks_extra_pass env f s₂ hf₂]
    · rw [runStringChecks_minLen_pass env s₃ m _ _ (by omega),
        runStringChecks_maxLen_pass env s₃ M _ _ (by omega),
        runStringChecks_extra_pass env f s₃ hf₃]
    · exact runStringChecks_cons_ne env s₄ _ _
        (runStringChecks_maxLen_fail env s₄ M _ _ (by omega))
  · rw [hsh₁ hr]
    simp only [hps]
    refine ⟨?_, ?_, ?_, ?_⟩
    · exact runStringChecks_cons_ne env s₁ _ _
        (runStringChecks_minLen_fail env s₁ m _ _ (by omega))
    · rw [runStringChecks_minLen_pass env s₂ 1 _ _ (by omega),
        runStringChecks_minLen_pass env s₂ m _ _ (by omega),
        runStringChecks_maxLen_pass env s₂ M _ _ (by omega),
        runStringChecks_extra_pass env f s₂ hf₂]
    · rw [runStringChecks_minLen_pass env s₃ 1 _ _ (by omega),
        runStringChecks_minLen_pass env s₃ m _ _ (by omega),
        runStringChecks_maxLen_pass env s₃ M _ _ (by omega),
        runStringChecks_extra_pass env f s₃ hf₃]
    · exact runStringChecks_cons_ne env s₄ _ _
        (runStringChecks_cons_ne env s₄ _ _
          (runStringChecks_maxLen_fail env s₄ M _ _ (by omega)))

theorem C2_length_bounds_boundary_witness :
    (zodParse envTriv
      (jsonFieldToZod { name := "e", type := .email,
                        minLength := some 2, maxLength := some 3 })
      (.str "a")).issues ≠ [] ∧
    (zodParse envTriv
      (jsonFieldToZod { name := "e", type := .email,
                        minLength := some 2, maxLength := some 3 })
      (.str "ab")).issues = [] ∧
    (zodParse envTriv
      (jsonFieldToZod { name := "e", type := .email,
                        minLength := some 2, maxLength := some 3 })
      (.str "abc")).issues = [] ∧
    (zodParse envTriv
      (jsonFieldToZod { name := "e", type := .email,
                        minLength := some 2, maxLength := some 3 })
      (.str "abcd")).issues ≠ [] := by
  exact C2_length_bounds_boundary envTriv
    { name := "e", type := .email, minLength := some 2, maxLength := some 3 }
    2 3 "a" "ab" "abc" "abcd" rfl rfl rfl (by decide) (by decide)
    rfl rfl rfl rfl
    (by exact ⟨fun _ => rfl, fun _ => rfl, fun _ => rfl⟩)
    (by exact ⟨fun _ => rfl, fun _ => rfl, fun _ => rfl⟩)

/-- The schema is a zod string whose first check is `c`. -/
def headStr (c : StringCheck) (s : ZodSchema) : Prop :=
  ∃ cs, s = .zString (c :: cs)

theorem headStr_zStrMin {c : StringCheck} {s : ZodSchema} (h : headStr c s)
    (n : Nat) (msg : String) : headStr c (zStrMin s n msg) := by
  obtain ⟨cs, rfl⟩ := h
  exact ⟨cs ++ [.minLen n msg], by simp [zStrMin]⟩

theorem headStr_zStrMax {c : StringCheck} {s : ZodSchema} (h : headStr c s)
    (n : Nat) (msg : String) : headStr c (zStrMax s n msg) := by
  obtain ⟨cs, rfl⟩ := h
  exact ⟨cs ++ [.maxLen n msg], by simp [zStrMax]⟩

theorem headStr_zStrRegex {c : StringCheck} {s : ZodSchema} (h : headStr c s)
    (p : String) (msg : String) : headStr c (zStrRegex s p msg) := by
  obtain ⟨cs, rfl⟩ := h
  exact ⟨cs ++ [.regex p msg], by simp [zStrRegex]⟩

theorem headStr_zStrEmail {c : StringCheck} {s : ZodSchema} (h : headStr c s)
    (msg : String) : headStr c (zStrEmail s msg) := by
  obtain ⟨cs, rfl⟩ := h
  exact ⟨cs ++ [.email msg], by simp [zStrEmail]⟩

theorem headStr_zStrUrl {c : StringCheck} {s : ZodSchema} (h : headStr c s)
    (msg : String) : headStr c (zStrUrl s msg) := by
  obtain ⟨cs, rfl⟩ := h
  exact ⟨cs ++ [.url msg], by simp [zStrUrl]⟩

theorem headStr_applyMinLength (f : JsonFieldDefinition) {c : StringCheck}
    {s : ZodSchema} (h : headStr c s) : headStr c (applyMinLength f s) := by
  unfold applyMinLength
  split
  · exact headStr_zStrMin h _ _
  · exact h

theorem headStr_applyMaxLength (f : JsonFieldDefinition) {c : StringCheck}
    {s : ZodSchema} (h : headStr c s) : headStr c (applyMaxLength f s) := by
  unfold applyMaxLength
  split
  · exact headStr_zStrMax h _ _
  · exact h

theorem headStr_applyPattern (f : JsonFieldDefinition) {c : StringCheck}
    {s : ZodSchema} (h : headStr c s) : headStr c (applyPattern f s) := by
  unfold applyPattern
  split
  · exact headStr_zStrRegex h _ _
  · exact h

theorem headStr_applyNumMin (f : JsonFieldDefinition) {c : StringCheck}
    {s : ZodSchema} (h : headStr c s) : headStr c (applyNumMin f s) := by
  obtain ⟨cs, rfl⟩ := h
  unfold applyNumMin
  split
  · exact ⟨cs, by simp [zNumMin]⟩
  · exact ⟨cs, rfl⟩

theorem headStr_applyNumMax (f : JsonFieldDefinition) {c : StringCheck}
    {s : ZodSchema} (h : headStr c s) : headStr c (applyNumMax f s) := by
  obtain ⟨cs, rfl⟩ := h
  unfold applyNumMax
  split
  · exact ⟨cs, by simp [zNumMax]⟩
  · exact ⟨cs, rfl⟩

theorem headStr_applyEmail (f : JsonFieldDefinition) {c : StringCheck}
    {s : ZodSchema} (h : headStr c s) : headStr c (applyEmail f s) := by
  unfold applyEmail
  split
  · exact headStr_zStrEmail h _
  · exact h

theorem headStr_applyUrl (f : JsonFieldDefinition) {c : StringCheck}
    {s : ZodSchema} (h : headStr c s) : headStr c (applyUrl f s) := by
  unfold applyUrl
  split
  · exact headStr_zStrUrl h _
  · exact h

theorem applyDate_id_of_stringKind (f : JsonFieldDefinition)
    (hk : isStringKind f.type = true) (s : ZodSchema) :
    applyDate f s = s := by
  unfold applyDate
  cases h : f.type <;> simp_all [isStringKind]

theorem baseSchema_stringKind (f : JsonFieldDefinition)
    (hk : isStringKind f.type = true) : baseSchema f = .zString [] := by
  cases h : f.type <;> simp_all [isStringKind, baseSchema]

/-- The compiled schema of a required string-kind field starts with the
min-1 "required" check. -/
theorem jz_stringKind_head (f : JsonFieldDefinition)
    (hk : isStringKind f.type = true) (hr : f.required ≠ some false) :
    headStr (.minLen 1 (requiredMsg f)) (jsonFieldToZod f) := by
  unfold jsonFieldToZod
  rw [requiredGate_of_ne _ hr, applyOptional_of_ne _ hr,
    applyDate_id_of_stringKind f hk]
  have h0 : headStr (.minLen 1 (requiredMsg f))
      (applyRequired f (baseSchema f)) := by
    unfold applyRequired
    rw [if_pos hk, baseSchema_stringKind f hk]
    exact ⟨[], rfl⟩
  exact headStr_applyUrl f (headStr_applyEmail f (headStr_applyPattern f
    (headStr_applyNumMax f (headStr_applyNumMin f (headStr_applyMaxLength f
      (headStr_applyMinLength f h0))))))

theorem jz_boolean_shape (f : JsonFieldDefinition) (ht : f.type = .boolean)
    (hr : f.required ≠ some false) :
    jsonFieldToZod f = .refine .zBoolean .requiredBoolean (requiredMsg f) := by
  have hgate : (f.required != some false) = true := by
    simp [bne_iff_ne]
    exact hr
  have hopt : (f.required == some false) = false := by
    simp
    exact hr
  simp only [jsonFieldToZod, applyRequiredGate, applyRequired, applyMinLength,
    applyMaxLength, applyPattern, applyNumMin, applyNumMax, applyEmail,
    applyUrl, applyDate, applyOptional, baseSchema, isStringKind,
    requiredRefineKind, ht, hgate, hopt]
  simp

theorem jz_select_some_shape (f : JsonFieldDefinition)
    (opts : List FieldOption) (ht : f.type = .select)
    (ho : f.options = some opts) (hr : f.required ≠ some false) :
    jsonFieldToZod f =
      .refine (.zEnum (opts.map (·.value))) .requiredSelect (requiredMsg f) := by
  have hgate : (f.required != some false) = true := by
    simp [bne_iff_ne]
    exact hr
  have hopt : (f.required == some false) = false := by
    simp
    exact hr
  simp only [jsonFieldToZod, applyRequiredGate, applyRequired, applyMinLength,
    applyMaxLength, applyPattern, applyNumMin, applyNumMax, applyEmail,
    applyUrl, applyDate, applyOptional, baseSchema, isStringKind,
    requiredRefineKind, ht, ho, hgate, hopt]
  simp

theorem jz_select_none_shape (f : JsonFieldDefinition) (ht : f.type = .select)
    (ho : f.options = none) (hr : f.required ≠ some false) :
    jsonFieldToZod f =
      .refine (.zString []) .requiredSelect (requiredMsg f) := by
  have hgate : (f.required != some false) = true := by
    simp [bne_iff_ne]
    exact hr
  have hopt : (f.required == some false) = false := by
    simp
    exact hr
  simp only [jsonFieldToZod, applyRequiredGate, applyRequired, applyMinLength,
    applyMaxLength, applyPattern, applyNumMin, applyNumMax, applyEmail,
    applyUrl, applyDate, applyOptional, baseSchema, isStringKind,
    requiredRefineKind, ht, ho, hgate, hopt]
  simp

theorem jz_multiselect_some_shape (f : JsonFieldDefinition)
    (opts : List FieldOption) (ht : f.type = .multiselect)
    (ho : f.options = some opts) (hr : f.required ≠ some false) :
    jsonFieldToZod f =
      .zArrayEnum (opts.map (·.value)) (some (1, requiredMsg f)) := by
  have hgate : (f.required != some false) = true := by
    simp [bne_iff_ne]
    exact hr
  have hopt : (f.required == some false) = false := by
    simp
    exact hr
  simp only [jsonFieldToZod, applyRequiredGate, applyRequired, applyMinLength,
    applyMaxLength, applyPattern, applyNumMin, applyNumMax, applyEmail,
    applyUrl, applyDate, applyOptional, baseSchema, isStringKind,
    zArrMin, ht, ho, hgate, hopt]
  simp

theorem jz_multiselect_none_shape (f : JsonFieldDefinition)
    (ht : f.type = .multiselect) (ho : f.options = none)
    (hr : f.required ≠ some false) :
    jsonFieldToZod f = .zString [.minLen 1 (requiredMsg f)] := by
  have hgate : (f.required != some false) = true := by
    simp [bne_iff_ne]
    exact hr
  have hopt : (f.required == some false) = false := by
    simp
    exact hr
  simp only [jsonFieldToZod, applyRequiredGate, applyRequired, applyMinLength,
    applyMaxLength, applyPattern, applyNumMin, applyNumMax, applyEmail,
    applyUrl, applyDate, applyOptional, baseSchema, isStringKind,
    zArrMin, ht, ho, hgate, hopt]
  simp

theorem jz_file_shape (f : JsonFieldDefinition) (ht : f.type = .file)
    (hr : f.required ≠ some false) :
    jsonFieldToZod f = .refine .zAny .requiredFile (requiredMsg f) := by
  have hgate : (f.required != some false) = true := by
    simp [bne_iff_ne]
    exact hr
  have hopt : (f.required == some false) = false := by
    simp
    exact hr
  simp only [jsonFieldToZod, applyRequiredGate, applyRequired, applyMinLength,
    applyMaxLength, applyPattern, applyNumMin, applyNumMax, applyEmail,
    applyUrl, applyDate, applyOptional, baseSchema, isStringKind,
    requiredRefineKind, ht, hgate, hopt]
  simp

/-- A date or datetime field gets no required rule at all: its schema is
just the string base refined by the date-validity check. -/
theorem jz_date_shape (f : JsonFieldDefinition)
    (ht : f.type = .date ∨ f.type = .datetime)
    (hr : f.required ≠ some false) :
    jsonFieldToZod f =
      .refine (.zString []) .validDate
        (validationMsg f ("Please enter a valid " ++ fieldTypeText f.type)) := by
  have hgate : (f.required != some false) = true := by
    simp [bne_iff_ne]
    exact hr
  have hopt : (f.required == some false) = false := by
    simp
    exact hr
  rcases ht with ht | ht <;>
    simp only [jsonFieldToZod, applyRequiredGate, applyRequired,
      applyMinLength, applyMaxLength, applyPattern, applyNumMin, applyNumMax,
      applyEmail, applyUrl, applyDate, applyOptional, baseSchema,
      isStringKind, fieldTypeText, ht, hgate, hopt] <;>
    simp

/-- With required explicitly false the compiled schema is wrapped in
`.optional()`. -/
theorem jz_optional_shape (f : JsonFieldDefinition)
    (hr : f.required = some false) :
    ∃ inner, jsonFieldToZod f = .zOptional inner := by
  unfold jsonFieldToZod applyOptional
  simp [hr]

theorem requiredMsg_of_no_validation (f : JsonFieldDefinition)
    (hv : f.validation = none) :
    requiredMsg f = labelOrName f ++ " is required" := by
  simp [requiredMsg, validationMsg, hv]

theorem isRequired_ne_short (x : String) : x ++ " is required" ≠ "Required" := by
  intro he
  have h2 := congrArg String.length he
  rw [String.length_append] at h2
  have e1 : "Required".length = 8 := rfl
  have e2 : " is required".length = 12 := rfl
  omega

theorem isRequired_ne_of_getLast (x t : String)
    (h : t.data.getLast? ≠ some 'd') : x ++ " is required" ≠ t := by
  intro he
  apply h
  rw [← he]
  show (x.data ++ " is required".data).getLast? = some 'd'
  rw [List.getLast?_append_of_ne_nil _ (by decide)]
  decide

theorem enumIssue_empty_getLast (values : List String) :
    (enumIssue values "").data.getLast? = some ' ' := by
  show ((("Invalid enum value. Expected " ++ String.intercalate " | " values).data
      ++ ", received ".data) ++ "".data).getLast? = some ' '
  have hnil : "".data = ([] : List Char) := rfl
  rw [hnil, List.append_nil, List.getLast?_append_of_ne_nil _ (by decide)]
  decide

theorem c1_undef_rejected (env : JsEnv) (f : JsonFieldDefinition)
    (hr : f.required ≠ some false) :
    (zodParse env (jsonFieldToZod f) .undefined).issues ≠ [] := by
  cases ht : f.type with
  | string =>
      obtain ⟨cs, hs⟩ := jz_stringKind_head f (by simp [isStringKind, ht]) hr
      rw [hs]
      simp [zodParse, invalidTypeMsg]
  | email =>
      obtain ⟨cs, hs⟩ := jz_stringKind_head f (by simp [isStringKind, ht]) hr
      rw [hs]
      simp [zodParse, invalidTypeMsg]
  | url =>
      obtain ⟨cs, hs⟩ := jz_stringKind_head f (by simp [isStringKind, ht]) hr
      rw [hs]
      simp [zodParse, invalidTypeMsg]
  | textarea =>
      obtain ⟨cs, hs⟩ := jz_stringKind_head f (by simp [isStringKind, ht]) hr
      rw [hs]
      simp [zodParse, invalidTypeMsg]
  | number =>
      obtain ⟨cs, hs⟩ := jz_number_shape f ht hr
      rw [hs]
      simp [zodParse, invalidTypeMsg]
  | boolean =>
      rw [jz_boolean_shape f ht hr]
      simp [zodParse, invalidTypeMsg]
  | select =>
      cases ho : f.options with
      | some opts =>
          rw [jz_select_some_shape f opts ht ho hr]
          simp [zodParse, invalidTypeMsg]
      | none =>
          rw [jz_select_none_shape f ht ho hr]
          simp [zodParse, invalidTypeMsg]
  | multiselect =>
      cases ho : f.options with
      | some opts =>
          rw [jz_multiselect_some_shape f opts ht ho hr]
          simp [zodParse, invalidTypeMsg]
      | none =>
          rw [jz_multiselect_none_shape f ht ho hr]
          simp [zodParse, invalidTypeMsg]
  | date =>
      rw [jz_date_shape f (Or.inl ht) hr]
      simp [zodParse, invalidTypeMsg]
  | datetime =>
      rw [jz_date_shape f (Or.inr ht) hr]
      simp [zodParse, invalidTypeMsg]
  | file =>
      rw [jz_file_shape f ht hr]
      simp [zodParse, refinePasses]

theorem c1_undef_accepted (env : JsEnv) (f : JsonFieldDefinition)
    (hr : f.required = some false) :
    (zodParse env (jsonFieldToZod f) .undefined).issues = [] := by
  obtain ⟨inner, hs⟩ := jz_optional_shape f hr
  rw [hs]
  simp [zodParse]

theorem c1_string_empty (env : JsEnv) (f : JsonFieldDefinition)
    (hk : isStringKind f.type = true) (hr : f.required ≠ some false) :
    requiredMsg f ∈ (zodParse env (jsonFieldToZod f) (.str "")).issues ∧
      (zodParse env (jsonFieldToZod f) (.str "")).issues ≠ [] := by
  obtain ⟨cs, hs⟩ := jz_stringKind_head f hk hr
  rw [hs]
  have hev : zodParse env (.zString (.minLen 1 (requiredMsg f) :: cs))
      (.str "") = ⟨false, requiredMsg f :: runStringChecks env "" cs⟩ := by
    simp [zodParse, runStringChecks]
  rw [hev]
  exact ⟨List.mem_cons_self _ _, by simp⟩

theorem c1_number_zero (env : JsEnv) (f : JsonFieldDefinition)
    (ht : f.type = .number) (hr : f.required ≠ some false) :
    requiredMsg f ∈ (zodParse env (jsonFieldToZod f) (.num 0)).issues := by
  obtain ⟨cs, hs⟩ := jz_number_shape f ht hr
  rw [hs]
  have hev : zodParse env (.zNumber (.minVal 1 (requiredMsg f) :: cs))
      (.num 0) = ⟨false, requiredMsg f :: runNumChecks 0 cs⟩ := by
    simp [zodParse, runNumChecks]
  rw [hev]
  exact List.mem_cons_self _ _

theorem zodParse_refine_eq (env : JsEnv) (inner : ZodSchema)
    (kind : RefineKind) (msg : String) (v : JsonValue) :
    zodParse env (.refine inner kind msg) v =
      if (zodParse env inner v).aborted then zodParse env inner v
      else if refinePasses env kind v then zodParse env inner v
      else ⟨(zodParse env inner v).aborted,
        (zodParse env inner v).issues ++ [msg]⟩ := by
  rfl

theorem c1_multiselect_some_empty (env : JsEnv) (f : JsonFieldDefinition)
    (opts : List FieldOption) (ht : f.type = .multiselect)
    (ho : f.options = some opts) (hr : f.required ≠ some false) :
    (zodParse env (jsonFieldToZod f) (.arr [])).issues = [requiredMsg f] := by
  rw [jz_multiselect_some_shape f opts ht ho hr]
  simp [zodParse]

theorem c1_multiselect_none_empty (env : JsEnv) (f : JsonFieldDefinition)
    (ht : f.type = .multiselect) (ho : f.options = none)
    (hr : f.required ≠ some false) :
    (zodParse env (jsonFieldToZod f) (.str "")).issues = [requiredMsg f] := by
  rw [jz_multiselect_none_shape f ht ho hr]
  simp [zodParse, runStringChecks]

theorem c1_select_none_empty (env : JsEnv) (f : JsonFieldDefinition)
    (ht : f.type = .select) (ho : f.options = none)
    (hr : f.required ≠ some false) :
    (zodParse env (jsonFieldToZod f) (.str "")).issues = [requiredMsg f] := by
  rw [jz_select_none_shape f ht ho hr]
  simp [zodParse, runStringChecks, refinePasses]

theorem c1_select_some_empty (env : JsEnv) (f : JsonFieldDefinition)
    (opts : List FieldOption) (ht : f.type = .select)
    (ho : f.options = some opts) (hr : f.required ≠ some false)
    (hv : f.validation = none) (hmem : "" ∉ opts.map (·.value)) :
    (zodParse env (jsonFieldToZod f) (.str "")).issues
        = [enumIssue (opts.map (·.value)) ""] ∧
      requiredMsg f ∉ (zodParse env (jsonFieldToZod f) (.str "")).issues := by
  rw [jz_select_some_shape f opts ht ho hr]
  have h1 : zodParse env (.zEnum (opts.map (·.value))) (.str "")
      = ⟨true, [enumIssue (opts.map (·.value)) ""]⟩ := by
    simp [zodParse, hmem]
  have h2 : zodParse env
      (.refine (.zEnum (opts.map (·.value))) .requiredSelect (requiredMsg f))
      (.str "") = ⟨true, [enumIssue (opts.map (·.value)) ""]⟩ := by
    rw [zodParse_refine_eq, h1]
    simp
  rw [h2]
  refine ⟨rfl, ?_⟩
  rw [requiredMsg_of_no_validation f hv]
  simp only [List.mem_singleton]
  exact isRequired_ne_of_getLast _ _ (by
    rw [enumIssue_empty_getLast]
    decide)

theorem c1_boolean_never_message (env : JsEnv) (f : JsonFieldDefinition)
    (ht : f.type = .boolean) (hr : f.required ≠ some false)
    (hv : f.validation = none) :
    (zodParse env (jsonFieldToZod f) .undefined).issues = ["Required"] ∧
      requiredMsg f ∉ ["Required"] ∧
      (zodParse env (jsonFieldToZod f) .null).issues
        = ["Expected boolean, received null"] ∧
      requiredMsg f ∉ ["Expected boolean, received null"] := by
  rw [jz_boolean_shape f ht hr]
  refine ⟨by simp [zodParse, invalidTypeMsg], ?_, ?_, ?_⟩
  · rw [requiredMsg_of_no_validation f hv]
    simp only [List.mem_singleton]
    exact isRequired_ne_short _
  · simp [zodParse, invalidTypeMsg, jsTypeName]
  · rw [requiredMsg_of_no_validation f hv]
    simp only [List.mem_singleton]
    exact isRequired_ne_of_getLast _ _ (by decide)

theorem c1_file_message (env : JsEnv) (f : JsonFieldDefinition)
    (ht : f.type = .file) (hr : f.required ≠ some false) :
    (zodParse env (jsonFieldToZod f) .undefined).issues = [requiredMsg f] ∧
      (zodParse env (jsonFieldToZod f) .null).issues = [requiredMsg f] := by
  rw [jz_file_shape f ht hr]
  exact ⟨by simp [zodParse, refinePasses], by simp [zodParse, refinePasses]⟩

theorem c1_date_no_required_rule (env : JsEnv) (f : JsonFieldDefinition)
    (ht : f.type = .date ∨ f.type = .datetime) (hr : f.required ≠ some false)
    (hv : f.validation = none) (hd : env.dateParses "" = false) :
    (zodParse env (jsonFieldToZod f) (.str "")).issues
        = [validationMsg f ("Please enter a valid " ++ fieldTypeText f.type)] ∧
      requiredMsg f ∉ (zodParse env (jsonFieldToZod f) (.str "")).issues := by
  rw [jz_date_shape f ht hr]
  have h2 : zodParse env
      (.refine (.zString []) .validDate
        (validationMsg f ("Please enter a valid " ++ fieldTypeText f.type)))
      (.str "")
      = ⟨false, [validationMsg f ("Please enter a valid "
          ++ fieldTypeText f.type)]⟩ := by
    simp [zodParse, runStringChecks, refinePasses, hd]
  rw [h2]
  refine ⟨rfl, ?_⟩
  rw [requiredMsg_of_no_validation f hv, validationMsg, hv]
  simp only [List.mem_singleton]
  rcases ht with ht | ht <;> rw [ht] <;>
    exact isRequired_ne_of_getLast _ _ (by decide)

/-- A platform environment with the JavaScript behaviour that
`new Date("")` is invalid; other syntax checks accept. -/
def envStd : JsEnv :=
  ⟨fun _ _ => true, fun _ => true, fun _ => true, fun s => s != ""⟩

/-- C1 counterexample: a boolean field with `required` unset rejects the
absent value, but the reported failure is zod's generic "Required"
invalid-type issue, not the field's required message "newsletter is
required". -/
theorem C1_counterexample :
    (zodParse envStd
        (jsonFieldToZod { name := "newsletter", type := .boolean })
        .undefined).issues = ["Required"] ∧
      requiredMsg { name := "newsletter", type := .boolean }
        = "newsletter is required" ∧
      "newsletter is required" ∉
        (zodParse envStd
          (jsonFieldToZod { name := "newsletter", type := .boolean })
          .undefined).issues := by
  refine ⟨rfl, rfl, ?_⟩
  have : (zodParse envStd
      (jsonFieldToZod { name := "newsletter", type := .boolean })
      .undefined).issues = ["Required"] := rfl
  rw [this]
  decide

/-- C1 amended: with `required` unset or true every kind rejects the absent
value, and `required: false` accepts it; but the field's required message is
reported only where the compiled required rule can actually fire — the empty
string for string kinds, values below 1 for numbers, the empty array for
multiselect with options, the empty string for multiselect or select without
options, and undefined/null for file.  The absent value is reported as zod's
generic "Required" issue; a boolean field never reports the field's message;
a select with options rejects the empty string with the enum issue instead;
date and datetime fields get no required rule at all — their empty string is
rejected only by the date-validity refinement with its own message. -/
theorem C1_required_behaviour_amended (env : JsEnv)
    (f : JsonFieldDefinition) :
    (f.required ≠ some false →
      (zodParse env (jsonFieldToZod f) .undefined).issues ≠ []) ∧
    (f.required = some false →
      (zodParse env (jsonFieldToZod f) .undefined).issues = []) ∧
    (isStringKind f.type = true → f.required ≠ some false →
      requiredMsg f ∈ (zodParse env (jsonFieldToZod f) (.str "")).issues ∧
        (zodParse env (jsonFieldToZod f) (.str "")).issues ≠ []) ∧
    (f.type = .number → f.required ≠ some false →
      requiredMsg f ∈ (zodParse env (jsonFieldToZod f) (.num 0)).issues) ∧
    (f.type = .multiselect → f.required ≠ some false →
      ∀ opts, f.options = some opts →
        (zodParse env (jsonFieldToZod f) (.arr [])).issues
          = [requiredMsg f]) ∧
    (f.type = .multiselect → f.required ≠ some false → f.options = none →
      (zodParse env (jsonFieldToZod f) (.str "")).issues = [requiredMsg f]) ∧
    (f.type = .select → f.required ≠ some false → f.options = none →
      (zodParse env (jsonFieldToZod f) (.str "")).issues = [requiredMsg f]) ∧
    (f.type = .select → f.required ≠ some false → f.validation = none →
      ∀ opts, f.options = some opts → "" ∉ opts.map (·.value) →
        (zodParse env (jsonFieldToZod f) (.str "")).issues
            = [enumIssue (opts.map (·.value)) ""] ∧
          requiredMsg f ∉
            (zodParse env (jsonFieldToZod f) (.str "")).issues) ∧
    (f.type = .boolean → f.required ≠ some false → f.validation = none →
      (zodParse env (jsonFieldToZod f) .undefined).issues = ["Required"] ∧
        requiredMsg f ∉ ["Required"] ∧
        (zodParse env (jsonFieldToZod f) .null).issues
          = ["Expected boolean, received null"] ∧
        requiredMsg f ∉ ["Expected boolean, received null"]) ∧
    (f.type = .file → f.required ≠ some false →
      (zodParse env (jsonFieldToZod f) .undefined).issues = [requiredMsg f] ∧
        (zodParse env (jsonFieldToZod f) .null).issues = [requiredMsg f]) ∧
    ((f.type = .date ∨ f.type = .datetime) → f.required ≠ some false →
      f.validation = none → env.dateParses "" = false →
      (zodParse env (jsonFieldToZod f) (.str "")).issues
          = [validationMsg f ("Please enter a valid " ++ fieldTypeText f.type)] ∧
        requiredMsg f ∉
          (zodParse env (jsonFieldToZod f) (.str "")).issues) := by
  refine ⟨fun hr => c1_undef_rejected env f hr,
    fun hr => c1_undef_accepted env f hr,
    fun hk hr => c1_string_empty env f hk hr,
    fun ht hr => c1_number_zero env f ht hr,
    fun ht hr opts ho => c1_multiselect_some_empty env f opts ht ho hr,
    fun ht hr ho => c1_multiselect_none_empty env f ht ho hr,
    fun ht hr ho => c1_select_none_empty env f ht ho hr,
    fun ht hr hv opts ho hmem =>
      c1_select_some_empty env f opts ht ho hr hv hmem,
    fun ht hr hv => c1_boolean_never_message env f ht hr hv,
    fun ht hr => c1_file_message env f ht hr,
    fun ht hr hv hd => c1_date_no_required_rule env f ht hr hv hd⟩

theorem C1_required_behaviour_amended_witness :
    ((zodParse envStd
        (jsonFieldToZod { name := "firstName", type := .string })
        .undefined).issues ≠ [] ∧
      requiredMsg { name := "firstName", type := .string } ∈
        (zodParse envStd
          (jsonFieldToZod { name := "firstName", type := .string })
          (.str "")).issues) ∧
    (zodParse envStd
      (jsonFieldToZod { name := "bio", type := .textarea,
                        required := some false })
      .undefined).issues = [] ∧
    (zodParse envStd
      (jsonFieldToZod { name := "news", type := .boolean })
      .undefined).issues = ["Required"] ∧
    (zodParse envStd
      (jsonFieldToZod { name := "birth", type := .date })
      (.str "")).issues = ["Please enter a valid date"] := by
  refine ⟨⟨?_, ?_⟩, ?_, ?_, ?_⟩
  · exact (C1_required_behaviour_amended envStd
      { name := "firstName", type := .string }).1 (by simp)
  · exact ((C1_required_behaviour_amended envStd
      { name := "firstName", type := .string }).2.2.1 rfl (by simp)).1
  · exact (C1_required_behaviour_amended envStd
      { name := "bio", type := .textarea, required := some false }).2.1 rfl
  · exact ((C1_required_behaviour_amended envStd
      { name := "news", type := .boolean }).2.2.2.2.2.2.2.2.1
        rfl (by simp) rfl).1
  · have := ((C1_required_behaviour_amended envStd
      { name := "birth", type := .date }).2.2.2.2.2.2.2.2.2.2
        (Or.inl rfl) (by simp) rfl rfl).1
    simpa using this

/-- One-field fixture schemas, one per field kind, each declaring a default
value that satisfies its own constraints. -/
def fixtureString : JsonFormSchema :=
  { fields := [{ name := "s", type := .string, minLength := some 2,
                 maxLength := some 5, defaultValue := some (.str "abc") }] }

def fixtureEmail : JsonFormSchema :=
  { fields := [{ name := "e", type := .email,
                 defaultValue := some (.str "a@b.co") }] }

def fixtureUrl : JsonFormSchema :=
  { fields := [{ name := "u", type := .url,
                 defaultValue := some (.str "https://a.co") }] }

def fixtureTextarea : JsonFormSchema :=
  { fields := [{ name := "t", type := .textarea,
                 defaultValue := some (.str "hello") }] }

def fixtureNumber : JsonFormSchema :=
  { fields := [{ name := "n", type := .number, min := some 1,
                 max := some 10, defaultValue := some (.num 5) }] }

def fixtureBoolean : JsonFormSchema :=
  { fields := [{ name := "b", type := .boolean,
                 defaultValue := some (.bool true) }] }

def fixtureSelect : JsonFormSchema :=
  { fields := [{ name := "c", type := .select,
                 options := some [⟨"a", "A"⟩, ⟨"b", "B"⟩],
                 defaultValue := some (.str "a") }] }

def fixtureMultiselect : JsonFormSchema :=
  { fields := [{ name := "m", type := .multiselect,
                 options := some [⟨"a", "A"⟩, ⟨"b", "B"⟩],
                 defaultValue := some (.arr ["a"]) }] }

def fixtureDate : JsonFormSchema :=
  { fields := [{ name := "d", type := .date,
                 defaultValue := some (.str "2024-01-01") }] }

def fixtureDatetime : JsonFormSchema :=
  { fields := [{ name := "dt", type := .datetime,
                 defaultValue := some (.str "2024-01-01T10:00") }] }

def fixtureFile : JsonFormSchema :=
  { fields := [{ name := "f", type := .file,
                 defaultValue := some .obj }] }

/-- C3: for each field kind's fixture, validating the default-value record
built by createDefaultValues against the schema compiled by jsonSchemaToZod
succeeds. -/
theorem C3_defaults_roundtrip (env : JsEnv)
    (he : env.emailTest "a@b.co" = true)
    (hu : env.urlTest "https://a.co" = true)
    (hd1 : env.dateParses "2024-01-01" = true)
    (hd2 : env.dateParses "2024-01-01T10:00" = true) :
    zodObjectIssues env (jsonSchemaToZod fixtureString)
        (createDefaultValues fixtureString []) = [] ∧
    zodObjectIssues env (jsonSchemaToZod fixtureEmail)
        (createDefaultValues fixtureEmail []) = [] ∧
    zodObjectIssues env (jsonSchemaToZod fixtureUrl)
        (createDefaultValues fixtureUrl []) = [] ∧
    zodObjectIssues env (jsonSchemaToZod fixtureTextarea)
        (createDefaultValues fixtureTextarea []) = [] ∧
    zodObjectIssues env (jsonSchemaToZod fixtureNumber)
        (createDefaultValues fixtureNumber []) = [] ∧
    zodObjectIssues env (jsonSchemaToZod fixtureBoolean)
        (createDefaultValues fixtureBoolean []) = [] ∧
    zodObjectIssues env (jsonSchemaToZod fixtureSelect)
        (createDefaultValues fixtureSelect []) = [] ∧
    zodObjectIssues env (jsonSchemaToZod fixtureMultiselect)
        (createDefaultValues fixtureMultiselect []) = [] ∧
    zodObjectIssues env (jsonSchemaToZod fixtureDate)
        (createDefaultValues fixtureDate []) = [] ∧
    zodObjectIssues env (jsonSchemaToZod fixtureDatetime)
        (createDefaultValues fixtureDatetime []) = [] ∧
    zodObjectIssues env (jsonSchemaToZod fixtureFile)
        (createDefaultValues fixtureFile []) = [] := by
  refine ⟨rfl, ?_, ?_, rfl, rfl, rfl, rfl, rfl, ?_, ?_, rfl⟩
  · simp [zodObjectIssues, jsonSchemaToZod, createDefaultValues, recordGet,
      fixtureEmail, jsonFieldToZod, applyOptional, applyDate, applyUrl,
      applyEmail, applyPattern, applyNumMax, applyNumMin, applyMaxLength,
      applyMinLength, applyRequiredGate, applyRequired, baseSchema,
      isStringKind, zStrMin, zStrEmail, truthyNat, truthyStr, requiredMsg,
      validationMsg, labelOrName, fallbackDefault, zodParse,
      runStringChecks, he]
    decide
  · simp [zodObjectIssues, jsonSchemaToZod, createDefaultValues, recordGet,
      fixtureUrl, jsonFieldToZod, applyOptional, applyDate, applyUrl,
      applyEmail, applyPattern, applyNumMax, applyNumMin, applyMaxLength,
      applyMinLength, applyRequiredGate, applyRequired, baseSchema,
      isStringKind, zStrMin, zStrUrl, truthyNat, truthyStr, requiredMsg,
      validationMsg, labelOrName, fallbackDefault, zodParse,
      runStringChecks, hu]
    decide
  · simp [zodObjectIssues, jsonSchemaToZod, createDefaultValues, recordGet,
      fixtureDate, jsonFieldToZod, applyOptional, applyDate, applyUrl,
      applyEmail, applyPattern, applyNumMax, applyNumMin, applyMaxLength,
      applyMinLength, applyRequiredGate, applyRequired, baseSchema,
      isStringKind, truthyNat, truthyStr, requiredMsg, validationMsg,
      labelOrName, fallbackDefault, fieldTypeText, zodParse,
      runStringChecks, refinePasses, hd1]
  · simp [zodObjectIssues, jsonSchemaToZod, createDefaultValues, recordGet,
      fixtureDatetime, jsonFieldToZod, applyOptional, applyDate, applyUrl,
      applyEmail, applyPattern, applyNumMax, applyNumMin, applyMaxLength,
      applyMinLength, applyRequiredGate, applyRequired, baseSchema,
      isStringKind, truthyNat, truthyStr, requiredMsg, validationMsg,
      labelOrName, fallbackDefault, fieldTypeText, zodParse,
      runStringChecks, refinePasses, hd2]

theorem C3_defaults_roundtrip_witness :
    zodObjectIssues envTriv (jsonSchemaToZod fixtureEmail)
        (createDefaultValues fixtureEmail []) = [] ∧
    zodObjectIssues envTriv (jsonSchemaToZod fixtureDate)
        (createDefaultValues fixtureDate []) = [] := by
  exact ⟨(C3_defaults_roundtrip envTriv rfl rfl rfl rfl).2.1,
    (C3_defaults_roundtrip envTriv rfl rfl rfl rfl).2.2.2.2.2.2.2.2.1⟩

/-- Reaction counters of a post (validators.ts postSchema). -/
structure Reactions where
  likes : Int
  dislikes : Int
deriving DecidableEq, Repr

/-- A post record (validators.ts postSchema). -/
structure Post where
  id : Int
  title : String
  body : String
  tags : List String
  reactions : Reactions
  views : Int
  userId : Int
deriving DecidableEq, Repr

/-- A paged posts response (validators.ts postsResponseSchema). -/
structure PostsResponse where
  posts : List Post
  total : Int
  skip : Int
  limit : Int
deriving DecidableEq, Repr

/-- The data portion of the Zustand post store state (postStore.ts). -/
structure PostState where
  posts : List Post
  currentPost : Option Post
  isLoading : Bool
  isLoadingMore : Bool
  isCreating : Bool
  isUpdating : Bool
  isDeleting : Bool
  error : Option String
  total : Int
  skip : Int
  limit : Int
deriving DecidableEq, Repr

/-- initialState of postStore.ts. -/
def initialState : PostState :=
  { posts := [], currentPost := none, isLoading := false,
    isLoadingMore := false, isCreating := false, isUpdating := false,
    isDeleting := false, error := none, total := 0, skip := 0, limit := 10 }

/-- The three externally visible snapshots of one store operation:
after the entry `set` (busy flag raised, error cleared), after the
success-mutation or error `set`, and after the `finally` reset. -/
structure OpTrace where
  started : PostState
  settled : PostState
  final : PostState
deriving DecidableEq, Repr

/-- The filters argument of fetchPosts. -/
structure PostFilters where
  limit : Option Int := none
  skip : Option Int := none
  search : Option String := none
  userId : Option Int := none
  tags : Option (List String) := none
deriving DecidableEq, Repr

/-- JavaScript truthiness of `filters?.skip` (absent filters, absent skip
and skip 0 are all falsy). -/
def truthySkip : Option PostFilters → Bool
  | none => false
  | some f =>
      match f.skip with
      | none => false
      | some n => n != 0

/-- fetchPosts of postStore.ts, with the service call's outcome made
explicit.  `filters?.skip` truthy selects the loading-more flag and the
append mutation; otherwise the initial-loading flag and full replace. -/
def fetchPosts (st : PostState) (filters : Option PostFilters)
    (outcome : Except String PostsResponse) : OpTrace :=
  let loadMore := truthySkip filters
  let s1 := if loadMore then { st with isLoadingMore := true, error := none }
    else { st with isLoading := true, error := none }
  match outcome with
  | .ok resp =>
      let s2 := { s1 with
        posts := if loadMore then s1.posts ++ resp.posts else resp.posts,
        total := resp.total, skip := resp.skip, limit := resp.limit }
      ⟨s1, s2, if loadMore then { s2 with isLoadingMore := false }
        else { s2 with isLoading := false }⟩
  | .error e =>
      let s2 := { s1 with error := some e }
      ⟨s1, s2, if loadMore then { s2 with isLoadingMore := false }
        else { s2 with isLoading := false }⟩

/-- fetchPost of postStore.ts. -/
def fetchPost (st : PostState) (outcome : Except String Post) : OpTrace :=
  let s1 := { st with isLoading := true, error := none }
  match outcome with
  | .ok p =>
      let s2 := { s1 with currentPost := some p }
      ⟨s1, s2, { s2 with isLoading := false }⟩
  | .error e =>
      let s2 := { s1 with error := some e }
      ⟨s1, s2, { s2 with isLoading := false }⟩

/-- createPost of postStore.ts: on success the new record is prepended and
becomes the current post; the call returns it.  On failure the error slot is
set and null is returned. -/
def createPost (st : PostState) (outcome : Except String Post) :
    OpTrace × Option Post :=
  let s1 := { st with isCreating := true, error := none }
  match outcome with
  | .ok p =>
      let s2 := { s1 with posts := p :: s1.posts, currentPost := some p }
      (⟨s1, s2, { s2 with isCreating := false }⟩, some p)
  | .error e =>
      let s2 := { s1 with error := some e }
      (⟨s1, s2, { s2 with isCreating := false }⟩, none)

/-- updatePost of postStore.ts: in-place replacement by id. -/
def updatePost (st : PostState) (id : Int) (outcome : Except String Post) :
    OpTrace × Option Post :=
  let s1 := { st with isUpdating := true, error := none }
  match outcome with
  | .ok p =>
      let s2 := { s1 with
        posts := s1.posts.map (fun post => if post.id = id then p else post),
        currentPost :=
          match s1.currentPost with
          | some cp => if cp.id = id then some p else some cp
          | none => none }
      (⟨s1, s2, { s2 with isUpdating := false }⟩, some p)
  | .error e =>
      let s2 := { s1 with error := some e }
      (⟨s1, s2, { s2 with isUpdating := false }⟩, none)

/-- deletePost of postStore.ts: filters the id out of the list and clears
the current post when it has that id; returns true on success, false on
failure. -/
def deletePost (st : PostState) (id : Int) (outcome : Except String Unit) :
    OpTrace × Bool :=
  let s1 := { st with isDeleting := true, error := none }
  match outcome with
  | .ok _ =>
      let s2 := { s1 with
        posts := s1.posts.filter (fun post => post.id != id),
        currentPost :=
          match s1.currentPost with
          | some cp => if cp.id = id then none else some cp
          | none => none }
      (⟨s1, s2, { s2 with isDeleting := false }⟩, true)
  | .error e =>
      let s2 := { s1 with error := some e }
      (⟨s1, s2, { s2 with isDeleting := false }⟩, false)

/-- searchPosts of postStore.ts: full replace of list and pagination. -/
def searchPosts (st : PostState) (query : String) (lim : Option Int)
    (outcome : Except String PostsResponse) : OpTrace :=
  let s1 := { st with isLoading := true, error := none }
  match outcome with
  | .ok resp =>
      let s2 := { s1 with
        posts := resp.posts, total := resp.total,
        skip := resp.skip, limit := resp.limit }
      ⟨s1, s2, { s2 with isLoading := false }⟩
  | .error e =>
      let s2 := { s1 with error := some e }
      ⟨s1, s2, { s2 with isLoading := false }⟩

/-- A sample post for counterexamples. -/
def samplePost : Post :=
  { id := 1, title := "hello", body := "world", tags := [],
    reactions := ⟨0, 0⟩, views := 0, userId := 1 }

/-- C5 counterexample: if the collection already holds a record equal to the
one the create call returns, the record appears twice afterwards — the
claim's "exactly once" fails for such states. -/
theorem C5_counterexample :
    ((createPost { initialState with posts := [samplePost] }
        (.ok samplePost)).1.final.posts.count samplePost = 2) ∧
      (createPost { initialState with posts := [samplePost] }
        (.ok samplePost)).2 = some samplePost := by
  constructor
  · rfl
  · rfl

/-- C5 amended: a successful create prepends the returned record, leaving
the previous records following unchanged and in order; when the record was
not already present (as when the server assigns a fresh id) it therefore
occurs exactly once. -/
theorem C5_create_prepends (st : PostState) (p : Post) :
    (createPost st (.ok p)).1.final.posts = p :: st.posts ∧
      (createPost st (.ok p)).2 = some p ∧
      (p ∉ st.posts → (createPost st (.ok p)).1.final.posts.count p = 1) := by
  refine ⟨rfl, rfl, fun hnm => ?_⟩
  have : (createPost st (.ok p)).1.final.posts = p :: st.posts := rfl
  rw [this, List.count_cons_self, List.count_eq_zero_of_not_mem hnm]

theorem C5_create_prepends_witness :
    (createPost initialState (.ok samplePost)).1.final.posts
        = [samplePost] ∧
      (createPost initialState (.ok samplePost)).1.final.posts.count
        samplePost = 1 := by
  refine ⟨(C5_create_prepends initialState samplePost).1, ?_⟩
  exact (C5_create_prepends initialState samplePost).2.2 (by decide)

/-- C6: deleting an id that no record in the list carries leaves the list
and the pagination fields unchanged and still returns true. -/
theorem C6_delete_absent_id_noop (st : PostState) (id : Int)
    (h : ∀ p ∈ st.posts, p.id ≠ id) :
    (deletePost st id (.ok ())).1.final.posts = st.posts ∧
      (deletePost st id (.ok ())).1.final.total = st.total ∧
      (deletePost st id (.ok ())).1.final.skip = st.skip ∧
      (deletePost st id (.ok ())).1.final.limit = st.limit ∧
      (deletePost st id (.ok ())).2 = true := by
  have hfil : st.posts.filter (fun post => post.id != id) = st.posts := by
    apply List.filter_eq_self.mpr
    intro p hp
    simp [bne_iff_ne]
    exact h p hp
  refine ⟨?_, rfl, rfl, rfl, rfl⟩
  show st.posts.filter (fun post => post.id != id) = st.posts
  exact hfil

theorem C6_delete_absent_id_noop_witness :
    (deletePost { initialState with posts := [samplePost] } 99
        (.ok ())).1.final.posts = [samplePost] ∧
      (deletePost { initialState with posts := [samplePost] } 99
        (.ok ())).2 = true := by
  have h := C6_delete_absent_id_noop
    { initialState with posts := [samplePost] } 99 (by decide)
  exact ⟨h.1, h.2.2.2.2⟩

/-- C7: every store operation raises its busy flag for the duration of the
call (entry and mutation snapshots), lowers it in all outcomes, and records
the failure message in the error slot. -/
theorem C7_busy_flags_and_errors (st : PostState)
    (filters : Option PostFilters) (id : Int) (q : String) (lim : Option Int)
    (oPage : Except String PostsResponse) (oPost : Except String Post)
    (oCreate : Except String Post) (oUpd : Except String Post)
    (oDel : Except String Unit) (oSearch : Except String PostsResponse) :
    ((if truthySkip filters
        then (fetchPosts st filters oPage).started.isLoadingMore
        else (fetchPosts st filters oPage).started.isLoading) = true ∧
      (if truthySkip filters
        then (fetchPosts st filters oPage).settled.isLoadingMore
        else (fetchPosts st filters oPage).settled.isLoading) = true ∧
      (if truthySkip filters
        then (fetchPosts st filters oPage).final.isLoadingMore
        else (fetchPosts st filters oPage).final.isLoading) = false ∧
      (∀ e, oPage = .error e →
        (fetchPosts st filters oPage).final.error = some e)) ∧
    ((fetchPost st oPost).started.isLoading = true ∧
      (fetchPost st oPost).settled.isLoading = true ∧
      (fetchPost st oPost).final.isLoading = false ∧
      (∀ e, oPost = .error e → (fetchPost st oPost).final.error = some e)) ∧
    ((createPost st oCreate).1.started.isCreating = true ∧
      (createPost st oCreate).1.settled.isCreating = true ∧
      (createPost st oCreate).1.final.isCreating = false ∧
      (∀ e, oCreate = .error e →
        (createPost st oCreate).1.final.error = some e)) ∧
    ((updatePost st id oUpd).1.started.isUpdating = true ∧
      (updatePost st id oUpd).1.settled.isUpdating = true ∧
      (updatePost st id oUpd).1.final.isUpdating = false ∧
      (∀ e, oUpd = .error e →
        (updatePost st id oUpd).1.final.error = some e)) ∧
    ((deletePost st id oDel).1.started.isDeleting = true ∧
      (deletePost st id oDel).1.settled.isDeleting = true ∧
      (deletePost st id oDel).1.final.isDeleting = false ∧
      (∀ e, oDel = .error e →
        (deletePost st id oDel).1.final.error = some e)) ∧
    ((searchPosts st q lim oSearch).started.isLoading = true ∧
      (searchPosts st q lim oSearch).settled.isLoading = true ∧
      (searchPosts st q lim oSearch).final.isLoading = false ∧
      (∀ e, oSearch = .error e →
        (searchPosts st q lim oSearch).final.error = some e)) := by
  refine ⟨?_, ?_, ?_, ?_, ?_, ?_⟩
  · by_cases hl : truthySkip filters <;>
      cases oPage <;> simp [fetchPosts, hl]
  · cases oPost <;> simp [fetchPost]
  · cases oCreate <;> simp [createPost]
  · cases oUpd <;> simp [updatePost]
  · cases oDel <;> simp [deletePost]
  · cases oSearch <;> simp [searchPosts]

theorem C7_busy_flags_and_errors_witness :
    (createPost initialState (.error "Failed to create post")).1.settled.isCreating
        = true ∧
      (createPost initialState
        (.error "Failed to create post")).1.final.isCreating = false ∧
      (createPost initialState
        (.error "Failed to create post")).1.final.error
        = some "Failed to create post" := by
  have h := C7_busy_flags_and_errors initialState none 1 "" none
    (.ok ⟨[], 0, 0, 10⟩) (.ok samplePost) (.error "Failed to create post")
    (.ok samplePost) (.ok ()) (.ok ⟨[], 0, 0, 10⟩)
  exact ⟨h.2.2.1.2.1, h.2.2.1.2.2.1, h.2.2.1.2.2.2 _ rfl⟩

/-- A sidebar sub-item (nav-main.tsx items prop). -/
structure NavSubItem where
  title : String
  url : String
deriving DecidableEq, Repr

/-- A sidebar menu item (nav-main.tsx items prop; the icon is presentation
only). -/
structure NavItem where
  title : String
  url : String
  isActive : Option Bool := none
  items : Option (List NavSubItem) := none
deriving DecidableEq, Repr

/-- The default open/closed configuration: each item open iff its isActive
flag is set (`item.isActive || false`). -/
def defaultMenuState (items : List NavItem) : List (String × Bool) :=
  items.map (fun it => (it.title, it.isActive.getD false))

/-- JavaScript object spread update `{ ...openMenus, [menuTitle]: isOpen }`:
replace the value at an existing key, else append the key at the end. -/
def setKey (m : List (String × Bool)) (k : String) (b : Bool) :
    List (String × Bool) :=
  if m.any (fun p => p.1 == k) then
    m.map (fun p => if p.1 == k then (k, b) else p)
  else m ++ [(k, b)]

/-- JSON string escaping for the two characters JSON.stringify escapes in
menu titles (quote and backslash; titles with control characters do not
arise in the sidebar data). -/
def escapeChar (c : Char) : List Char :=
  if c = '"' ∨ c = '\\' then ['\\', c] else [c]

def escapeChars (cs : List Char) : List Char :=
  (cs.map escapeChar).flatten

def boolChars : Bool → List Char
  | true => ['t', 'r', 'u', 'e']
  | false => ['f', 'a', 'l', 's', 'e']

/-- One `"key":bool` member of the serialized object. -/
def entryChars (p : String × Bool) : List Char :=
  ['"'] ++ escapeChars p.1.data ++ ['"', ':'] ++ boolChars p.2

/-- Comma-separated members. -/
def pairsChars : List (String × Bool) → List Char
  | [] => []
  | [p] => entryChars p
  | p :: rest => entryChars p ++ (',' :: pairsChars rest)

/-- JSON.stringify of a record of booleans. -/
def stringifyMenuState (m : List (String × Bool)) : String :=
  String.mk ('{' :: (pairsChars m ++ ['}']))

/-- Parse a JSON string body up to its closing quote, undoing the escapes.
Returns the decoded characters and the input remainder. -/
def parseStrChars : List Char → Option (List Char × List Char)
  | [] => none
  | c :: rest =>
      if c = '"' then some ([], rest)
      else if c = '\\' then
        match rest with
        | [] => none
        | e :: rest2 =>
            if e = '"' ∨ e = '\\' then
              match parseStrChars rest2 with
              | some (smore, r) => some (e :: smore, r)
              | none => none
            else none
      else
        match parseStrChars rest with
        | some (smore, r) => some (c :: smore, r)
        | none => none

def parseBoolChars : List Char → Option (Bool × List Char)
  | 't' :: 'r' :: 'u' :: 'e' :: rest => some (true, rest)
  | 'f' :: 'a' :: 'l' :: 's' :: 'e' :: rest => some (false, rest)
  | _ => none

/-- Parse one `"key":bool` member. -/
def parseEntryChars (cs : List Char) : Option (String × Bool × List Char) :=
  match cs with
  | '"' :: rest =>
      match parseStrChars rest with
      | some (kchars, r1) =>
          match r1 with
          | ':' :: r2 =>
              match parseBoolChars r2 with
              | some (b, r3) => some (String.mk kchars, b, r3)
              | none => none
          | _ => none
      | none => none
  | _ => none

/-- Parse comma-separated members followed by the closing brace at end of
input.  Recursion is fuel-bounded; parseMenuState supplies fuel exceeding
any possible member count (every member consumes at least seven
characters), so the bound never bites on accepted inputs. -/
def parsePairsFuel : Nat → List Char → Option (List (String × Bool))
  | 0, _ => none
  | fuel + 1, cs =>
      match parseEntryChars cs with
      | some (k, b, rest) =>
          match rest with
          | ',' :: more =>
              match parsePairsFuel fuel more with
              | some ps => some ((k, b) :: ps)
              | none => none
          | ['}'] => some [(k, b)]
          | _ => none
      | none => none

/-- JSON.parse for the serialized menu state: an object of boolean members.
Returns none exactly when the stored text is not such an object. -/
def parseMenuState (s : String) : Option (List (String × Bool)) :=
  match s.data with
  | ['{', '}'] => some []
  | '{' :: rest => parsePairsFuel (rest.length + 1) rest
  | _ => none

/-- The state-loading effect of nav-main.tsx: a stored representation that
is present and parses wins; an absent, empty or unparseable one falls back
to the default open/closed configuration. -/
def loadMenuState (items : List NavItem) (saved : Option String) :
    List (String × Bool) :=
  match saved with
  | some s =>
      if s != "" then
        match parseMenuState s with
        | some m => m
        | none => defaultMenuState items
      else defaultMenuState items
  | none => defaultMenuState items

/-- handleMenuToggle of nav-main.tsx: the new configuration and the text
written to storage. -/
def handleMenuToggle (m : List (String × Bool)) (title : String)
    (isOpen : Bool) : List (String × Bool) × String :=
  let newState := setKey m title isOpen
  (newState, stringifyMenuState newState)

theorem escapeChars_cons (c : Char) (cs : List Char) :
    escapeChars (c :: cs) = escapeChar c ++ escapeChars cs := by
  simp [escapeChars]

theorem parseStrChars_escape (k : List Char) :
    ∀ rest, parseStrChars (escapeChars k ++ ('"' :: rest)) = some (k, rest) := by
  induction k with
  | nil =>
      intro rest
      have h0 : escapeChars [] = [] := rfl
      rw [h0, List.nil_append, parseStrChars.eq_def]
      simp
  | cons c cs ih =>
      intro rest
      rw [escapeChars_cons]
      by_cases hc : c = '"' ∨ c = '\\'
      · have he : escapeChar c = ['\\', c] := by simp [escapeChar, hc]
        rw [he]
        show parseStrChars ('\\' :: c :: (escapeChars cs ++ ('"' :: rest)))
          = some (c :: cs, rest)
        rw [parseStrChars.eq_def]
        simp [hc, ih rest]
      · have he : escapeChar c = [c] := by simp [escapeChar, hc]
        rw [he]
        show parseStrChars (c :: (escapeChars cs ++ ('"' :: rest)))
          = some (c :: cs, rest)
        rw [parseStrChars.eq_def]
        push_neg at hc
        simp [hc.1, hc.2, ih rest]

theorem parseBoolChars_bool (b : Bool) (rest : List Char) :
    parseBoolChars (boolChars b ++ rest) = some (b, rest) := by
  cases b <;> simp [boolChars, parseBoolChars]

theorem parseEntryChars_entry (p : String × Bool) (rest : List Char) :
    parseEntryChars (entryChars p ++ rest) = some (p.1, p.2, rest) := by
  obtain ⟨k, b⟩ := p
  show parseEntryChars ((['"'] ++ escapeChars k.data ++ ['"', ':']
    ++ boolChars b) ++ rest) = some (k, b, rest)
  have hshape : (['"'] ++ escapeChars k.data ++ ['"', ':'] ++ boolChars b)
      ++ rest
      = '"' :: (escapeChars k.data ++ ('"' :: (':' :: (boolChars b
        ++ rest)))) := by
    simp
  rw [hshape]
  simp only [parseEntryChars, parseStrChars_escape, parseBoolChars_bool]

theorem pairsChars_length (m : List (String × Bool)) :
    m.length ≤ (pairsChars m).length := by
  induction m with
  | nil => simp [pairsChars]
  | cons p rest ih =>
      cases rest with
      | nil => simp [pairsChars, entryChars]
      | cons q qs =>
          have hre : pairsChars (p :: q :: qs)
              = entryChars p ++ (',' :: pairsChars (q :: qs)) := rfl
          rw [hre]
          simp only [List.length_append, List.length_cons]
          have h1 : 1 ≤ (entryChars p).length := by simp [entryChars]
          simp only [List.length_cons] at ih ⊢
          omega

theorem parsePairsFuel_roundtrip (m : List (String × Bool)) :
    ∀ fuel, m ≠ [] → m.length ≤ fuel →
      parsePairsFuel fuel (pairsChars m ++ ['}']) = some m := by
  induction m with
  | nil =>
      intro fuel hne
      exact absurd rfl hne
  | cons p rest ih =>
      intro fuel hne hfuel
      match fuel, hfuel with
      | f + 1, hfuel =>
          cases rest with
          | nil =>
              show parsePairsFuel (f + 1) (entryChars p ++ ['}']) = some [p]
              simp only [parsePairsFuel, parseEntryChars_entry]
          | cons q qs =>
              have hre : pairsChars (p :: q :: qs)
                  = entryChars p ++ (',' :: pairsChars (q :: qs)) := rfl
              have hsh : pairsChars (p :: q :: qs) ++ ['}']
                  = entryChars p ++ (',' :: (pairsChars (q :: qs)
                    ++ ['}'])) := by
                rw [hre]
                simp
              rw [hsh]
              simp only [parsePairsFuel, parseEntryChars_entry]
              rw [ih f (by simp) (by simp at hfuel ⊢; omega)]

theorem parseMenuState_roundtrip (m : List (String × Bool)) :
    parseMenuState (stringifyMenuState m) = some m := by
  cases m with
  | nil => rfl
  | cons p rest =>
      obtain ⟨tail, htail⟩ : ∃ tail, pairsChars (p :: rest)
          = '"' :: tail := by
        cases rest <;> exact ⟨_, rfl⟩
      have hdata : (stringifyMenuState (p :: rest)).data
          = '{' :: ('"' :: (tail ++ ['}'])) := by
        simp [stringifyMenuState, htail]
      rw [parseMenuState.eq_def, hdata]
      have hlen : (p :: rest).length ≤ tail.length + 1 := by
        have := pairsChars_length (p :: rest)
        rw [htail] at this
        simpa using this
      have hrt := parsePairsFuel_roundtrip (p :: rest)
        (('"' :: (tail ++ ['}'])).length + 1) (by simp)
        (by simp only [List.length_cons] at hlen ⊢; simp; omega)
      rw [htail] at hrt
      simpa using hrt

theorem stringify_ne_empty (m : List (String × Bool)) :
    stringifyMenuState m ≠ "" := by
  intro h
  have h2 := congrArg String.data h
  simp [stringifyMenuState] at h2

/-- C8: toggling writes the full new configuration; reloading from the
stored text yields exactly that configuration; an unparseable or absent
stored text falls back to the default (open iff isActive), with no
exception possible (all functions are total). -/
theorem C8_sidebar_persistence (items : List NavItem)
    (m : List (String × Bool)) (title : String) (b : Bool) :
    loadMenuState items (some (handleMenuToggle m title b).2)
        = (handleMenuToggle m title b).1 ∧
      (∀ s, parseMenuState s = none →
        loadMenuState items (some s) = defaultMenuState items) ∧
      loadMenuState items none = defaultMenuState items := by
  refine ⟨?_, ?_, rfl⟩
  · show loadMenuState items (some (stringifyMenuState (setKey m title b)))
      = setKey m title b
    have hne : stringifyMenuState (setKey m title b) ≠ "" :=
      stringify_ne_empty _
    simp [loadMenuState, bne_iff_ne, hne, parseMenuState_roundtrip]
  · intro s hs
    by_cases hse : s = ""
    · simp [loadMenuState, hse]
    · simp [loadMenuState, bne_iff_ne, hse, hs]

theorem C8_sidebar_persistence_witness :
    loadMenuState
        [{ title := "Playground", url := "#", isActive := some true },
         { title := "Models", url := "#" }]
        (some (handleMenuToggle [("Playground", true)] "Models" true).2)
        = [("Playground", true), ("Models", true)] ∧
      loadMenuState
        [{ title := "Playground", url := "#", isActive := some true },
         { title := "Models", url := "#" }]
        (some "not json at all")
        = [("Playground", true), ("Models", false)] := by
  constructor
  · have h := (C8_sidebar_persistence
      [{ title := "Playground", url := "#", isActive := some true },
       { title := "Models", url := "#" }]
      [("Playground", true)] "Models" true).1
    rw [h]
    rfl
  · have h := (C8_sidebar_persistence
      [{ title := "Playground", url := "#", isActive := some true },
       { title := "Models", url := "#" }]
      [("Playground", true)] "Models" true).2.1 "not json at all" (by rfl)
    rw [h]
    rfl
